import Mathlib

/-!
# opensvc.Collector.GenerateTemplate

A shallow embedding of `GenerateTemplate` from `opensvc/opensvc.go` and of the
library functions it calls, followed by theorems about the manifest it builds.

Conventions of the embedding.

* Go strings are Lean `String`s; the only operations the function performs on
  them are concatenation, equality and splitting on the one-character
  separator `.`.
* The receiver `collector *Collector` is passed explicitly: the function
  returns the collector as it is left after the call, also when the call ends
  in a run-time panic.
* A call either returns the pair `(string, error)` or ends in a run-time
  panic; the two outcomes are the two sides of `Except RuntimePanic _`.
* `log.Printf` and `log.Println` only write to the diagnostic log and are not
  modelled.
* Loop indices and slice lengths are natural numbers: they are bounded by the
  length of a slice, so the 64-bit `int` never overflows.
-/

set_option linter.dupNamespace false
set_option maxRecDepth 100000

namespace opensvc

/-! ## Data model -/

/-- Go struct `Addr`: one address of an allocation host. -/
structure Addr where
  Addr : String
  Addr_type : String
  Mask : String
  Net_broadcast : String
  Net_gateway : String
  Net_name : String
  Net_netmask : String
  Net_network : String
  Net_id : Int
  Net_intf : String
deriving DecidableEq, Repr

/-- Go struct `Host`: an allocation host and its address inventory. -/
structure Host where
  Id : Int
  Node_id : String
  Node_name : String
  Cpu_cores : Int
  Cpu_freq : String
  Mem_bytes : Int
  Os_kernel : String
  Os_name : String
  Ips : List Addr
deriving DecidableEq, Repr

/-- Go struct `Collector`: the receiver of `GenerateTemplate`. -/
structure Collector where
  Host : String
  Port : String
  User : String
  Pass : String
  RplMgrUser : String
  RplMgrPassword : String
  ProvTemplate : String
  ProvAgents : String
  ProvMem : String
  ProvIops : String
  ProvDisk : String
  ProvPwd : String
  ProvNetMask : String
  ProvNetGateway : String
  ProvMicroSrv : String
  ProvFSType : String
  ProvFSPool : String
  ProvFSMode : String
  ProvFSPath : String
deriving DecidableEq, Repr

/-- The run-time panics the function can end in. -/
inductive RuntimePanic where
  /-- Go: `index out of range [index] with length length`. -/
  | indexOutOfRange (index length : Nat)
  /-- Go: `integer divide by zero`. -/
  | integerDivideByZero
deriving DecidableEq, Repr

/-- Go's `error` interface value; `none` is `nil`. -/
abbrev GoError := Option String

/-- Slice indexing `xs[i]` with Go's bounds check. -/
def index {α : Type} (xs : List α) (i : Nat) : Except RuntimePanic α :=
  match xs[i]? with
  | some x => .ok x
  | none => .error (.indexOutOfRange i xs.length)

/-! ## Library functions -/

namespace strings

/-- Go `strings.Split(s, sep)` for a one-character separator: the pieces of
`s` between the occurrences of `sep`; always at least one piece. -/
def Split (s : String) (sep : Char) : List String :=
  (s.data.splitOn sep).map String.mk

/-- Go `strings.Join(elems, sep)`. -/
def Join : List String → String → String
  | [], _ => ""
  | [a], _ => a
  | a :: b :: rest, sep => a ++ sep ++ Join (b :: rest) sep

end strings

namespace strconv

/-- Go `strconv.Itoa` on a non-negative integer. -/
def Itoa (n : Nat) : String := String.mk (Nat.toDigits 10 n)

end strconv

namespace fmt

/-- Go `fmt.Sprintf("%02d", n)` on a non-negative integer: the decimal
digits of `n`, padded on the left with zeros to a width of at least 2. -/
def Sprintf02d (n : Nat) : String :=
  String.mk (List.replicate (2 - (Nat.toDigits 10 n).length) '0' ++ Nat.toDigits 10 n)

end fmt

/-! ## GenerateTemplate -/

/-- The accumulators of the loop over `servers`:
`disk`, `fs`, `net`, `vm` and `ip_pods`. -/
structure Sections where
  disk : String
  fs : String
  net : String
  vm : String
  ip_pods : String
deriving DecidableEq, Repr

/-- The condition
`ipsagents[0] == ipsdb[0] && ipsagents[1] == ipsdb[1] && ipsagents[2] == ipsdb[2]`,
evaluated left to right with short-circuit and bounds checks. -/
def sameSubnet (ipsagents ipsdb : List String) : Except RuntimePanic Bool :=
  match index ipsagents 0 with
  | .error p => .error p
  | .ok a0 =>
  match index ipsdb 0 with
  | .error p => .error p
  | .ok d0 =>
  if a0 ≠ d0 then .ok false else
  match index ipsagents 1 with
  | .error p => .error p
  | .ok a1 =>
  match index ipsdb 1 with
  | .error p => .error p
  | .ok d1 =>
  if a1 ≠ d1 then .ok false else
  match index ipsagents 2 with
  | .error p => .error p
  | .ok a2 =>
  match index ipsdb 2 with
  | .error p => .error p
  | .ok d2 => .ok (decide (a2 = d2))

/-- The loop `for _, addr := range agent.Ips { ... }`; the second argument
is the current value of `ipdev`. -/
def resolveIpdev (host : String) : List Addr → String → Except RuntimePanic String
  | [], ipdev => .ok ipdev
  | addr :: rest, ipdev =>
    match sameSubnet (strings.Split addr.Addr '.') (strings.Split host '.') with
    | .error p => .error p
    | .ok true => resolveIpdev host rest addr.Net_intf
    | .ok false => resolveIpdev host rest ipdev

/-- One iteration of `for i, host := range servers`; `n` is `len(servers)`. -/
def podBody (collector : Collector) (n : Nat) (agents : List Host) (i : Nat)
    (host : String) (s : Sections) : Except RuntimePanic Sections :=
  let pod := fmt.Sprintf02d (i + 1)
  let disk :=
    if collector.ProvFSMode = "loopback" then
      s.disk ++ "\n[disk#" ++ pod ++ "]\ntype = loop\nfile = " ++ collector.ProvFSPath
        ++ "/\x7bsvcname\x7d_pod" ++ pod ++ ".dsk\nsize = \x7benv.size\x7d\n\n"
    else s.disk
  let disk :=
    if collector.ProvFSPool = "lvm" then
      disk ++ "\n[disk#10" ++ pod ++ "]\nname = \x7bsvcname\x7d\ntype = lvm\npvs = \x7bdisk#"
        ++ pod ++ ".file\x7d\n\n"
    else disk
  let fs :=
    if collector.ProvFSType = "directory" then
      s.fs ++ "\n[fs#" ++ pod ++ "]\ntype = directory\npath = \x7benv.base_dir\x7d/pod" ++ pod
        ++ "\npre_provision = docker network create \x7benv.subnet_name\x7d --subnet \x7benv.subnet_cidr\x7d\n\n"
    else
      let podpool := if collector.ProvFSPool = "lvm" then "10" ++ pod else pod
      s.fs ++ "\n[fs#" ++ pod ++ "]\ntype = " ++ collector.ProvFSType ++ "\ndev = \x7bdisk#"
        ++ podpool ++ ".file\x7d\nmnt = \x7benv.base_dir\x7d/pod" ++ pod
        ++ "\nsize = \x7benv.size\x7d\ndisable = true\nenable_on = \x7bnodes[$("
        ++ strconv.Itoa i ++ "//(" ++ strconv.Itoa n ++ "//\x7b#nodes\x7d))]\x7d\n\n"
  if agents.length = 0 then .error .integerDivideByZero else
  match index agents (i % agents.length) with
  | .error p => .error p
  | .ok agent =>
  match resolveIpdev host agent.Ips "" with
  | .error p => .error p
  | .ok ipdev =>
  let net := s.net ++ "\n[ip#" ++ pod ++ "]\ntags = sm sm.container sm.container.pod" ++ pod
    ++ " pod" ++ pod ++ "\n"
  let net :=
    if collector.ProvMicroSrv = "docker" then
      net ++ "\ntype = docker\nipdev = br0\ncontainer_rid = container#00\n\n"
    else
      net ++ "\nipdev = " ++ ipdev ++ "\n"
  let net := net ++ "\nipname = \x7benv.ip_pod" ++ pod
    ++ "\x7d\nnetmask = \x7benv.netmask\x7d\nnetwork = \x7benv.network\x7d\ngateway = \x7benv.gateway\x7d\ndel_net_route = true\ndisable = true\nenable_on = \x7bnodes[$("
    ++ strconv.Itoa i ++ "//(" ++ strconv.Itoa n ++ "//\x7b#nodes\x7d))]\x7d\n\n"
  let ip_pods := s.ip_pods ++ "\nip_pod" ++ pod ++ " = " ++ host ++ "\n"
  let vm :=
    if collector.ProvMicroSrv = "docker" then
      s.vm ++ "\n[container#" ++ pod ++ "]\ntags = pod" ++ pod
        ++ "\ntype = docker\nrun_image = \x7benv.db_img\x7d\nrun_args = --net=container:\x7bsvcname\x7d.container.00\n   -e MYSQL_ROOT_PASSWORD=\x7benv.mysql_root_password\x7d\n   -e MYSQL_INITDB_SKIP_TZINFO=yes\n   -v /etc/localtime:/etc/localtime:ro\n   -v \x7benv.base_dir\x7d/pod"
        ++ pod ++ "/data:/var/lib/mysql:rw\n   -v \x7benv.base_dir\x7d/pod" ++ pod
        ++ "/conf/my.cnf:/etc/mysql/my.cnf:rw\n   -v \x7benv.base_dir\x7d/pod" ++ pod
        ++ "/init:/docker-entrypoint-initdb.d:rw\ndisable = true\nenable_on = \x7bnodes[$("
        ++ strconv.Itoa i ++ "//(" ++ strconv.Itoa n ++ "//\x7b#nodes\x7d))]\x7d\n\n"
    else s.vm
  .ok { disk := disk, fs := fs, net := net, vm := vm, ip_pods := ip_pods }

/-- The loop `for i, host := range servers`, entered at index `i` with the
remaining endpoints; `n` is `len(servers)`. -/
def podLoop (collector : Collector) (n : Nat) (agents : List Host) :
    Nat → List String → Sections → Except RuntimePanic Sections
  | _, [], s => .ok s
  | i, host :: rest, s =>
    match podBody collector n agents i host s with
    | .error p => .error p
    | .ok s1 => podLoop collector n agents (i + 1) rest s1

/-- The loop `for i, mask := range masks { if mask == "0" { ips[i] = "0" } }`,
entered at index `i` with the remaining masks. -/
def zeroMasked : List String → Nat → List String → Except RuntimePanic (List String)
  | ips, _, [] => .ok ips
  | ips, i, mask :: rest =>
    if mask = "0" then
      if i < ips.length then zeroMasked (ips.set i "0") (i + 1) rest
      else .error (.indexOutOfRange i ips.length)
    else zeroMasked ips (i + 1) rest

/-- The value of the local variable `network`. -/
def networkOf (collector : Collector) : Except RuntimePanic String :=
  match zeroMasked (strings.Split collector.ProvNetGateway '.') 0
      (strings.Split collector.ProvNetMask '.') with
  | .error p => .error p
  | .ok ips => .ok (strings.Join ips ".")

/-- The five assignments `collector.ProvMicroSrv = tpl[0]` to
`collector.ProvFSPath = tpl[4]`, each with its bounds check; the collector is
returned as the assignments leave it. -/
def assignDescriptor (collector : Collector) (tpl : List String) :
    Except RuntimePanic Unit × Collector :=
  match index tpl 0 with
  | .error p => (.error p, collector)
  | .ok t0 =>
  let collector := { collector with ProvMicroSrv := t0 }
  match index tpl 1 with
  | .error p => (.error p, collector)
  | .ok t1 =>
  let collector := { collector with ProvFSType := t1 }
  match index tpl 2 with
  | .error p => (.error p, collector)
  | .ok t2 =>
  let collector := { collector with ProvFSPool := t2 }
  match index tpl 3 with
  | .error p => (.error p, collector)
  | .ok t3 =>
  let collector := { collector with ProvFSMode := t3 }
  match index tpl 4 with
  | .error p => (.error p, collector)
  | .ok t4 => (.ok (), { collector with ProvFSPath := t4 })

/-- The text of `conf` before the loop. -/
def confHeader (collector : Collector) : String :=
  let conf := "\n[DEFAULT]\nnodes = \x7benv.nodes\x7d\nflex_primary = \x7benv.nodes[0]\x7d\ncluster_type = flex\nrollback = false\nshow_disabled = false\n\t"
  if collector.ProvMicroSrv = "docker" then
    conf ++ "\ndocker_daemon_private = false\ndocker_data_dir = \x7benv.base_dir\x7d/docker\ndocker_daemon_args = --log-opt max-size=1m --storage-driver=aufs\n\n[container#00]\ntype = docker\nrun_image = busybox:latest\nrun_args =  --net=none  -i -t\n    -v /etc/localtime:/etc/localtime:ro\nrun_command = /bin/sh\n"
  else conf

/-- The body of `GenerateTemplate` after the descriptor fields are assigned:
it only reads the collector. -/
def generateBody (collector : Collector) (servers : List String) (agents : List Host) :
    Except RuntimePanic (String × GoError) :=
  let conf := confHeader collector
  match podLoop collector servers.length agents 0 servers
      { disk := "", fs := "", net := "", vm := "", ip_pods := "" } with
  | .error p => .error p
  | .ok s =>
  let conf := conf ++ s.disk
  let conf := conf ++ s.fs
  let conf := conf ++ "\npost_provision = \x7bsvcmgr\x7d -s \x7bsvcname\x7d compliance fix --attach --moduleset mariadb.svc.mrm.db\n"
  let conf := conf ++ s.net
  let conf := conf ++ s.vm
  match networkOf collector with
  | .error p => .error p
  | .ok network =>
  let conf := conf ++ "\n[env]\nnodes = " ++ collector.ProvAgents ++ "\nsize = " ++ collector.ProvDisk
    ++ "\ndb_img = mariadb:latest\n" ++ s.ip_pods ++ "\nmysql_root_password = " ++ collector.ProvPwd
    ++ "\nnetwork = " ++ network ++ "\ngateway =  " ++ collector.ProvNetGateway
    ++ "\nnetmask =  " ++ collector.ProvNetMask ++ "\nbase_dir = /srv/\x7bsvcname\x7d\nmax_iops = "
    ++ collector.ProvIops ++ "\nmax_mem = " ++ collector.ProvMem ++ "\n\n"
  .ok (conf, none)

/-- Go method `(collector *Collector) GenerateTemplate(servers, agents)`.
The first component is the outcome of the call (the returned pair, or the
panic that ended it), the second is the collector after the call. -/
def GenerateTemplate (collector : Collector) (servers : List String) (agents : List Host) :
    Except RuntimePanic (String × GoError) × Collector :=
  match assignDescriptor collector (strings.Split collector.ProvTemplate '.') with
  | (.error p, collector) => (.error p, collector)
  | (.ok (), collector) => (generateBody collector servers agents, collector)


/-! ## Sample inputs -/

/-- A collector with the given descriptor, gateway and netmask and fixed
values for the other provisioning parameters. -/
def mkCollector (template gateway netmask : String) : Collector :=
  { Host := "collector", Port := "443", User := "root", Pass := "secret",
    RplMgrUser := "mrm", RplMgrPassword := "mrm", ProvTemplate := template,
    ProvAgents := "node1,node2", ProvMem := "256", ProvIops := "100", ProvDisk := "10g",
    ProvPwd := "pw", ProvNetMask := netmask, ProvNetGateway := gateway,
    ProvMicroSrv := "", ProvFSType := "", ProvFSPool := "", ProvFSMode := "", ProvFSPath := "" }

/-- An address `addr` on interface `intf`. -/
def mkAddr (addr intf : String) : Addr :=
  { Addr := addr, Addr_type := "ipv4", Mask := "24", Net_broadcast := "", Net_gateway := "",
    Net_name := "", Net_netmask := "", Net_network := "", Net_id := 0, Net_intf := intf }

/-- An allocation host named `name` with the address inventory `ips`. -/
def mkHost (name : String) (ips : List Addr) : Host :=
  { Id := 1, Node_id := name, Node_name := name, Cpu_cores := 4, Cpu_freq := "2400",
    Mem_bytes := 1024, Os_kernel := "", Os_name := "linux", Ips := ips }

/-! ## Vocabulary of the theorems -/

/-- The accumulators before the first iteration: five empty strings. -/
def Sections.empty : Sections :=
  { disk := "", fs := "", net := "", vm := "", ip_pods := "" }

/-- Concatenation of the accumulators, one by one. -/
def Sections.append (a b : Sections) : Sections :=
  { disk := a.disk ++ b.disk, fs := a.fs ++ b.fs, net := a.net ++ b.net, vm := a.vm ++ b.vm,
    ip_pods := a.ip_pods ++ b.ip_pods }

/-- The text `frag` occurs in `text` as a run of consecutive characters. -/
def Contains (text frag : String) : Prop := frag.data <:+: text.data

instance (text frag : String) : Decidable (Contains text frag) :=
  inferInstanceAs (Decidable (frag.data <:+: text.data))

/-- The manifest text of an outcome: the returned string, and the empty
string when the call ended in a panic. -/
def manifestOf (outcome : Except RuntimePanic (String × GoError)) : String :=
  match outcome with
  | .ok (conf, _) => conf
  | .error _ => ""

/-- The number a string of decimal digits stands for, leading zeros
allowed. -/
def decimalValue (l : List Char) : Nat :=
  l.foldl (fun a ch => 10 * a + (ch.toNat - 48)) 0

/-- The first three dot-separated components of an address (fewer when the
address has fewer). -/
def firstThree (addr : String) : List String := (strings.Split addr '.').take 3

/-- Inputs on which no bounds check and no division of the call can fail:
the descriptor has at least 5 fields, there is an allocation host when there
is an endpoint, every endpoint address and every host address has at least 3
dot-separated components, and the netmask has no more components than the
gateway. -/
def WellFormed (c : Collector) (servers : List String) (agents : List Host) : Prop :=
  5 ≤ (strings.Split c.ProvTemplate '.').length ∧
  (servers ≠ [] → agents ≠ []) ∧
  (∀ s ∈ servers, 3 ≤ (strings.Split s '.').length) ∧
  (∀ h ∈ agents, ∀ a ∈ h.Ips, 3 ≤ (strings.Split a.Addr '.').length) ∧
  (strings.Split c.ProvNetMask '.').length ≤ (strings.Split c.ProvNetGateway '.').length

instance (c : Collector) (servers : List String) (agents : List Host) :
    Decidable (WellFormed c servers agents) := by
  unfold WellFormed
  infer_instance

/-- The comparison
`ipsagents[0] == ipsdb[0] && ipsagents[1] == ipsdb[1] && ipsagents[2] == ipsdb[2]`
of a host address with an endpoint address indexes no missing component:
the two differ at component 0, or both have a component 1 and they differ
there, or both have a component 2. -/
def Comparable (addr host : String) : Prop :=
  (strings.Split addr '.')[0]? ≠ (strings.Split host '.')[0]? ∨
  (2 ≤ (strings.Split addr '.').length ∧ 2 ≤ (strings.Split host '.').length ∧
    ((strings.Split addr '.')[1]? ≠ (strings.Split host '.')[1]? ∨
     (3 ≤ (strings.Split addr '.').length ∧ 3 ≤ (strings.Split host '.').length)))

instance (addr host : String) : Decidable (Comparable addr host) := by
  unfold Comparable
  infer_instance

/-- Every component `0` of the netmask has a component of the gateway at the
same position. -/
def MaskFits (c : Collector) : Prop :=
  ∀ k, k < (strings.Split c.ProvNetMask '.').length →
    (strings.Split c.ProvNetMask '.')[k]? = some "0" →
    k < (strings.Split c.ProvNetGateway '.').length

instance (c : Collector) : Decidable (MaskFits c) := by
  unfold MaskFits
  infer_instance

/-- The inputs on which the call ends in no panic: the descriptor has at
least 5 fields, there is an allocation host when there is an endpoint, every
address of the host of pod `i` is comparable with endpoint `i`, and the
netmask fits the gateway. -/
def NoPanic (c : Collector) (servers : List String) (agents : List Host) : Prop :=
  5 ≤ (strings.Split c.ProvTemplate '.').length ∧
  (servers ≠ [] → agents ≠ []) ∧
  (∀ i (hi : i < servers.length) (hM : 0 < agents.length),
    ∀ a ∈ (agents.get ⟨i % agents.length, Nat.mod_lt _ hM⟩).Ips,
      Comparable a.Addr (servers.get ⟨i, hi⟩)) ∧
  MaskFits c

instance (c : Collector) (servers : List String) (agents : List Host) :
    Decidable (NoPanic c servers agents) := by
  unfold NoPanic
  infer_instance

/-! # Theorems -/

/-! ## Library lemmas -/


namespace strings

theorem Split_ne_nil (s : String) (sep : Char) : Split s sep ≠ [] := by
  unfold Split
  intro h
  have := List.splitOnP_ne_nil (· == sep) s.data
  simp [List.splitOn] at h
  exact this h

theorem Split_length_pos (s : String) (sep : Char) : 0 < (Split s sep).length :=
  List.length_pos.mpr (Split_ne_nil s sep)

theorem Join_data (l : List String) (sep : String) :
    (Join l sep).data = List.intercalate sep.data (l.map String.data) := by
  induction l with
  | nil => rfl
  | cons a t ih =>
    cases t with
    | nil => simp [Join, List.intercalate, List.intersperse]
    | cons b r =>
      simp only [Join, String.data_append, ih]
      simp [List.intercalate, List.intersperse]

theorem Join_Split (s : String) (sep : Char) : Join (Split s sep) (String.singleton sep) = s := by
  apply String.ext
  rw [Join_data]
  unfold Split
  rw [List.map_map]
  have : (String.data ∘ String.mk) = id := by funext x; rfl
  rw [this, List.map_id]
  exact List.intercalate_splitOn _ sep

end strings

theorem pods_two_chars : ∀ i < 99, (fmt.Sprintf02d (i + 1)).data.length = 2 := by decide!

theorem pods_increasing : ∀ j < 99, ∀ i < j, (fmt.Sprintf02d (i + 1)).data < (fmt.Sprintf02d (j + 1)).data := by
  decide!

theorem toDigitsCore_length_succ (b f n : Nat) (ds : List Char) :
    ds.length + 1 ≤ (Nat.toDigitsCore b (f + 1) n ds).length := by
  induction f generalizing n ds with
  | zero =>
    simp only [Nat.toDigitsCore]
    split <;> simp
  | succ f ih =>
    rw [Nat.toDigitsCore]
    split
    · simp
    · have := ih (n / b) (Nat.digitChar (n % b) :: ds)
      simp only [List.length_cons] at this
      omega

theorem toDigits_of_lt (n : Nat) (h : n < 10) : Nat.toDigits 10 n = [Nat.digitChar n] := by
  unfold Nat.toDigits
  rw [Nat.toDigitsCore]
  simp [Nat.div_eq_of_lt h, Nat.mod_eq_of_lt h]

theorem toDigits_length_of_ge (n : Nat) (h : 10 ≤ n) : 2 ≤ (Nat.toDigits 10 n).length := by
  unfold Nat.toDigits
  rw [Nat.toDigitsCore]
  have hne : ¬ n / 10 = 0 := by omega
  simp only [hne, if_false]
  obtain ⟨m, rfl⟩ : ∃ m, n = m + 1 := ⟨n - 1, by omega⟩
  have := toDigitsCore_length_succ 10 m ((m + 1) / 10) [Nat.digitChar ((m + 1) % 10)]
  simpa using this

/-! ## Descriptor parsing -/

theorem index_cons_succ {α : Type} (a : α) (l : List α) (i : Nat) :
    index (a :: l) (i + 1) = match index l i with
      | .ok x => .ok x
      | .error _ => .error (.indexOutOfRange (i + 1) (l.length + 1)) := by
  unfold index
  simp only [List.getElem?_cons_succ, List.length_cons]
  cases l[i]? <;> rfl

theorem assignDescriptor_short (c : Collector) (tpl : List String) (h : tpl.length < 5) :
    (assignDescriptor c tpl).1 = .error (.indexOutOfRange tpl.length tpl.length) := by
  match tpl, h with
  | [], _ => rfl
  | [_], _ => rfl
  | [_, _], _ => rfl
  | [_, _, _], _ => rfl
  | [_, _, _, _], _ => rfl
  | _ :: _ :: _ :: _ :: _ :: _, h => simp at h; omega

theorem GenerateTemplate_short (c : Collector) (servers : List String) (agents : List Host)
    (h : (strings.Split c.ProvTemplate '.').length < 5) :
    (GenerateTemplate c servers agents).1 =
      .error (.indexOutOfRange (strings.Split c.ProvTemplate '.').length
        (strings.Split c.ProvTemplate '.').length) := by
  have h1 := assignDescriptor_short c _ h
  unfold GenerateTemplate
  generalize assignDescriptor c (strings.Split c.ProvTemplate '.') = r at h1 ⊢
  obtain ⟨o, c1⟩ := r
  simp only at h1
  subst h1
  rfl

theorem assignDescriptor_fields (c : Collector) (t0 t1 t2 t3 t4 : String) (rest : List String) :
    assignDescriptor c (t0 :: t1 :: t2 :: t3 :: t4 :: rest) =
      (.ok (), { c with ProvMicroSrv := t0, ProvFSType := t1, ProvFSPool := t2,
                        ProvFSMode := t3, ProvFSPath := t4 }) := by
  simp [assignDescriptor, index]

theorem GenerateTemplate_of_fields (c : Collector) (servers : List String) (agents : List Host)
    (t0 t1 t2 t3 t4 : String) (rest : List String)
    (h : strings.Split c.ProvTemplate '.' = t0 :: t1 :: t2 :: t3 :: t4 :: rest) :
    GenerateTemplate c servers agents =
      (generateBody { c with ProvMicroSrv := t0, ProvFSType := t1, ProvFSPool := t2,
                             ProvFSMode := t3, ProvFSPath := t4 } servers agents,
       { c with ProvMicroSrv := t0, ProvFSType := t1, ProvFSPool := t2,
                ProvFSMode := t3, ProvFSPath := t4 }) := by
  unfold GenerateTemplate
  rw [h, assignDescriptor_fields]

theorem exists_fields_of_length {l : List String} (h : 5 ≤ l.length) :
    ∃ t0 t1 t2 t3 t4 rest, l = t0 :: t1 :: t2 :: t3 :: t4 :: rest := by
  match l, h with
  | t0 :: t1 :: t2 :: t3 :: t4 :: rest, _ => exact ⟨t0, t1, t2, t3, t4, rest, rfl⟩
  | [], h | [_], h | [_, _], h | [_, _, _], h | [_, _, _, _], h => simp at h

theorem generateBody_error_nil (c : Collector) (servers : List String) (agents : List Host)
    (conf : String) (err : GoError) (h : generateBody c servers agents = .ok (conf, err)) :
    err = none := by
  unfold generateBody at h
  simp only at h
  split at h
  · exact absurd h (by simp)
  · split at h
    · exact absurd h (by simp)
    · simp only [Except.ok.injEq, Prod.mk.injEq] at h
      exact h.2.symm


theorem splitOnP_pieces {α : Type} (p : α → Bool) (xs : List α) :
    ∀ l ∈ xs.splitOnP p, ∀ y ∈ l, ¬ p y = true := by
  induction xs with
  | nil => simp
  | cons x xs ih =>
    rw [List.splitOnP_cons]
    by_cases hx : p x = true
    · simp only [hx, if_true]
      intro l hl
      rcases List.mem_cons.mp hl with h | h
      · subst h; simp
      · exact ih l h
    · simp only [hx, if_false]
      cases hs : List.splitOnP p xs with
      | nil => exact absurd hs (List.splitOnP_ne_nil p xs)
      | cons hd tl =>
        rw [hs] at ih
        intro l hl
        simp [List.modifyHead] at hl
        rcases hl with h | h
        · subst h
          intro y hy
          rcases List.mem_cons.mp hy with h1 | h1
          · subst h1; exact hx
          · exact ih hd (List.mem_cons_self _ _) y h1
        · exact ih l (List.mem_cons_of_mem _ h)

theorem strings.Split_no_sep (s : String) (sep : Char) :
    ∀ p ∈ strings.Split s sep, sep ∉ p.data := by
  intro p hp
  unfold strings.Split at hp
  obtain ⟨l, hl, rfl⟩ := List.mem_map.mp hp
  intro hmem
  have := splitOnP_pieces (· == sep) s.data l hl sep hmem
  simp at this

theorem strings.Split_Join (l : List String) (sep : Char) (hne : l ≠ [])
    (hl : ∀ p ∈ l, sep ∉ p.data) :
    strings.Split (strings.Join l (String.singleton sep)) sep = l := by
  unfold strings.Split
  rw [strings.Join_data]
  have h1 : (String.singleton sep).data = [sep] := rfl
  rw [h1, List.splitOn_intercalate]
  · rw [List.map_map]
    have : (String.mk ∘ String.data) = id := by funext x; rfl
    rw [this, List.map_id]
  · intro d hd
    obtain ⟨p, hp, rfl⟩ := List.mem_map.mp hd
    exact hl p hp
  · simpa using hne

theorem podLoop_ProvTemplate (c : Collector) (x : String) (n : Nat) (agents : List Host)
    (servers : List String) (i : Nat) (s : Sections) :
    podLoop { c with ProvTemplate := x } n agents i servers s = podLoop c n agents i servers s := by
  induction servers generalizing i s with
  | nil => rfl
  | cons host rest ih =>
    simp only [podLoop]
    have hb : podBody { c with ProvTemplate := x } n agents i host s
        = podBody c n agents i host s := rfl
    rw [hb]
    cases podBody c n agents i host s with
    | error p => rfl
    | ok s1 => exact ih (i + 1) s1

theorem generateBody_ProvTemplate (c : Collector) (x : String) (servers : List String)
    (agents : List Host) :
    generateBody { c with ProvTemplate := x } servers agents = generateBody c servers agents := by
  unfold generateBody
  rw [podLoop_ProvTemplate]
  rfl

/-! ## The interface resolver and the network value -/

theorem sameSubnet_of_three (a b : List String) (ha : 3 ≤ a.length) (hb : 3 ≤ b.length) :
    sameSubnet a b = .ok (decide (a.take 3 = b.take 3)) := by
  match a, ha, b, hb with
  | a0 :: a1 :: a2 :: ra, _, b0 :: b1 :: b2 :: rb, _ =>
    simp only [sameSubnet, index, List.getElem?_cons_zero, List.getElem?_cons_succ, List.take]
    by_cases h0 : a0 = b0 <;> by_cases h1 : a1 = b1 <;> by_cases h2 : a2 = b2 <;>
      simp [h0, h1, h2]
  | [], h, _, _ | [_], h, _, _ | [_, _], h, _, _ => simp at h
  | _ :: _ :: _ :: _, _, [], h | _ :: _ :: _ :: _, _, [_], h
  | _ :: _ :: _ :: _, _, [_, _], h => simp at h

theorem resolveIpdev_of_three (host : String) (ips : List Addr) (ipdev : String)
    (hh : 3 ≤ (strings.Split host '.').length)
    (hi : ∀ a ∈ ips, 3 ≤ (strings.Split a.Addr '.').length) :
    ∃ r, resolveIpdev host ips ipdev = .ok r ∧
      ((∃ a ∈ ips, firstThree a.Addr = firstThree host ∧ r = a.Net_intf) ∨
       ((∀ a ∈ ips, firstThree a.Addr ≠ firstThree host) ∧ r = ipdev)) := by
  induction ips generalizing ipdev with
  | nil => exact ⟨ipdev, rfl, Or.inr ⟨by simp, rfl⟩⟩
  | cons a rest ih =>
    have ha := hi a (List.mem_cons_self _ _)
    have hrest : ∀ x ∈ rest, 3 ≤ (strings.Split x.Addr '.').length :=
      fun x hx => hi x (List.mem_cons_of_mem _ hx)
    rw [resolveIpdev, sameSubnet_of_three _ _ ha hh]
    by_cases hm : firstThree a.Addr = firstThree host
    · have hd : decide ((strings.Split a.Addr '.').take 3 = (strings.Split host '.').take 3)
          = true := by simpa [firstThree] using hm
      rw [hd]
      obtain ⟨r, hr, hcase⟩ := ih a.Net_intf hrest
      refine ⟨r, hr, Or.inl ?_⟩
      rcases hcase with ⟨x, hx, hxm, hxr⟩ | ⟨_, hr2⟩
      · exact ⟨x, List.mem_cons_of_mem _ hx, hxm, hxr⟩
      · exact ⟨a, List.mem_cons_self _ _, hm, hr2⟩
    · have hd : decide ((strings.Split a.Addr '.').take 3 = (strings.Split host '.').take 3)
          = false := by simpa [firstThree] using hm
      rw [hd]
      obtain ⟨r, hr, hcase⟩ := ih ipdev hrest
      refine ⟨r, hr, ?_⟩
      rcases hcase with ⟨x, hx, hxm, hxr⟩ | ⟨hall, hr2⟩
      · exact Or.inl ⟨x, List.mem_cons_of_mem _ hx, hxm, hxr⟩
      · refine Or.inr ⟨?_, hr2⟩
        intro x hx
        rcases List.mem_cons.mp hx with h | h
        · subst h; exact hm
        · exact hall x h

theorem zeroMasked_ok (masks ips : List String) (i : Nat) (h : i + masks.length ≤ ips.length) :
    ∃ r, zeroMasked ips i masks = .ok r := by
  induction masks generalizing ips i with
  | nil => exact ⟨ips, rfl⟩
  | cons m rest ih =>
    simp only [List.length_cons] at h
    rw [zeroMasked]
    by_cases hm : m = "0"
    · rw [if_pos hm, if_pos (by omega)]
      exact ih _ _ (by simp; omega)
    · rw [if_neg hm]
      exact ih _ _ (by omega)

theorem networkOf_ok (c : Collector)
    (h : (strings.Split c.ProvNetMask '.').length ≤ (strings.Split c.ProvNetGateway '.').length) :
    ∃ network, networkOf c = .ok network := by
  obtain ⟨r, hr⟩ := zeroMasked_ok (strings.Split c.ProvNetMask '.')
    (strings.Split c.ProvNetGateway '.') 0 (by omega)
  exact ⟨strings.Join r ".", by rw [networkOf, hr]⟩

theorem zeroMasked_four (g0 g1 g2 g3 m0 m1 m2 m3 : String) :
    zeroMasked [g0, g1, g2, g3] 0 [m0, m1, m2, m3] =
      .ok (List.zipWith (fun g m => if m = "0" then "0" else g) [g0, g1, g2, g3]
        [m0, m1, m2, m3]) := by
  by_cases h0 : m0 = "0" <;> by_cases h1 : m1 = "0" <;> by_cases h2 : m2 = "0" <;>
    by_cases h3 : m3 = "0" <;> simp [zeroMasked, h0, h1, h2, h3]

/-! ## Text containment -/

theorem Contains.refl (a : String) : Contains a a := List.infix_refl _

theorem Contains.append_right {a x : String} (b : String) (h : Contains a x) :
    Contains (a ++ b) x := by
  unfold Contains at h ⊢
  rw [String.data_append]
  exact List.IsInfix.trans h (List.infix_append' [] a.data b.data)

theorem Contains.append_left {a x : String} (b : String) (h : Contains a x) :
    Contains (b ++ a) x := by
  unfold Contains at h ⊢
  rw [String.data_append]
  exact List.IsInfix.trans h (List.suffix_append b.data a.data).isInfix

theorem Contains.trans {a b x : String} (h1 : Contains a b) (h2 : Contains b x) :
    Contains a x := List.IsInfix.trans h2 h1

/-! ## The loop over the endpoints -/

theorem Sections.append_empty (s : Sections) : s.append Sections.empty = s := by
  cases s
  simp [Sections.append, Sections.empty]

theorem Sections.append_assoc (a b d : Sections) :
    (a.append b).append d = a.append (b.append d) := by
  simp [Sections.append, String.append_assoc]

theorem index_of_lt {α : Type} (xs : List α) (i : Nat) (h : i < xs.length) :
    index xs i = .ok (xs.get ⟨i, h⟩) := by
  unfold index
  rw [List.getElem?_eq_getElem h]
  rfl

theorem podBody_append (c : Collector) (n : Nat) (agents : List Host) (i : Nat)
    (host : String) (s : Sections) :
    podBody c n agents i host s =
      match podBody c n agents i host Sections.empty with
      | .error p => .error p
      | .ok f => .ok (s.append f) := by
  unfold podBody
  simp only
  by_cases h0 : agents.length = 0
  · simp [h0]
  · rw [if_neg h0, if_neg h0]
    cases index agents (i % agents.length) with
    | error p => rfl
    | ok agent =>
      simp only
      cases resolveIpdev host agent.Ips "" with
      | error p => rfl
      | ok ipdev =>
        simp only [Except.ok.injEq, Sections.append, Sections.empty, Sections.mk.injEq]
        refine ⟨?_, ?_, ?_, ?_, ?_⟩ <;> (try split_ifs) <;>
          simp [String.append_assoc]

theorem podLoop_extends (c : Collector) (n : Nat) (agents : List Host) (hosts : List String)
    (i : Nat) (s s1 : Sections) (h : podLoop c n agents i hosts s = .ok s1) :
    ∃ t, s1 = s.append t := by
  induction hosts generalizing i s with
  | nil =>
    simp only [podLoop, Except.ok.injEq] at h
    exact ⟨Sections.empty, by rw [Sections.append_empty, h]⟩
  | cons host rest ih =>
    rw [podLoop, podBody_append] at h
    cases hf : podBody c n agents i host Sections.empty with
    | error p => rw [hf] at h; exact absurd h (by simp)
    | ok f =>
      rw [hf] at h
      obtain ⟨t, ht⟩ := ih (i + 1) (s.append f) h
      exact ⟨f.append t, by rw [ht, Sections.append_assoc]⟩

theorem podLoop_fragments (c : Collector) (n : Nat) (agents : List Host) (hosts : List String)
    (i : Nat) (s s1 : Sections) (h : podLoop c n agents i hosts s = .ok s1) :
    ∀ k (hk : k < hosts.length), ∃ f pre post : Sections,
      podBody c n agents (i + k) (hosts.get ⟨k, hk⟩) Sections.empty = .ok f ∧
      s1 = (pre.append f).append post := by
  induction hosts generalizing i s with
  | nil => intro k hk; exact absurd hk (by simp)
  | cons host rest ih =>
    rw [podLoop, podBody_append] at h
    cases hf : podBody c n agents i host Sections.empty with
    | error p => rw [hf] at h; exact absurd h (by simp)
    | ok f =>
      rw [hf] at h
      intro k hk
      cases k with
      | zero =>
        obtain ⟨t, ht⟩ := podLoop_extends c n agents rest (i + 1) (s.append f) s1 h
        exact ⟨f, s, t, hf, ht⟩
      | succ k =>
        obtain ⟨g, pre, post, hg, hs⟩ := ih (i + 1) (s.append f) h k (by simpa using hk)
        refine ⟨g, pre, post, ?_, hs⟩
        have : i + (k + 1) = i + 1 + k := by omega
        rw [this]
        exact hg

theorem podLoop_ok (c : Collector) (n : Nat) (agents : List Host) (hosts : List String)
    (i : Nat) (s : Sections)
    (h : ∀ k (hk : k < hosts.length), ∃ f,
      podBody c n agents (i + k) (hosts.get ⟨k, hk⟩) Sections.empty = .ok f) :
    ∃ s1, podLoop c n agents i hosts s = .ok s1 := by
  induction hosts generalizing i s with
  | nil => exact ⟨s, rfl⟩
  | cons host rest ih =>
    obtain ⟨f, hf⟩ := h 0 (by simp)
    rw [podLoop, podBody_append]
    simp only [Nat.add_zero, List.get_eq_getElem, List.getElem_cons_zero] at hf
    rw [hf]
    apply ih
    intro k hk
    obtain ⟨g, hg⟩ := h (k + 1) (by simpa using hk)
    refine ⟨g, ?_⟩
    have : i + 1 + k = i + (k + 1) := by omega
    rw [this]
    simpa using hg

theorem podBody_resolved (c : Collector) (n : Nat) (agents : List Host) (i : Nat)
    (host : String) (s f : Sections) (h : podBody c n agents i host s = .ok f) :
    ∃ (hM : 0 < agents.length) (ipdev : String),
      resolveIpdev host (agents.get ⟨i % agents.length, Nat.mod_lt _ hM⟩).Ips "" = .ok ipdev ∧
      f.net = s.net ++ "\n[ip#" ++ fmt.Sprintf02d (i + 1)
        ++ "]\ntags = sm sm.container sm.container.pod" ++ fmt.Sprintf02d (i + 1)
        ++ " pod" ++ fmt.Sprintf02d (i + 1) ++ "\n"
        ++ (if c.ProvMicroSrv = "docker" then
              "\ntype = docker\nipdev = br0\ncontainer_rid = container#00\n\n"
            else "\nipdev = " ++ ipdev ++ "\n")
        ++ "\nipname = \x7benv.ip_pod" ++ fmt.Sprintf02d (i + 1)
        ++ "\x7d\nnetmask = \x7benv.netmask\x7d\nnetwork = \x7benv.network\x7d\ngateway = \x7benv.gateway\x7d\ndel_net_route = true\ndisable = true\nenable_on = \x7bnodes[$("
        ++ strconv.Itoa i ++ "//(" ++ strconv.Itoa n ++ "//\x7b#nodes\x7d))]\x7d\n\n" := by
  unfold podBody at h
  simp only at h
  by_cases h0 : agents.length = 0
  · rw [if_pos h0] at h
    exact absurd h (by simp)
  · have hM : 0 < agents.length := Nat.pos_of_ne_zero h0
    rw [if_neg h0, index_of_lt agents _ (Nat.mod_lt _ hM)] at h
    simp only at h
    refine ⟨hM, ?_⟩
    cases hr : resolveIpdev host (agents.get ⟨i % agents.length, Nat.mod_lt _ hM⟩).Ips "" with
    | error p => rw [hr] at h; exact absurd h (by simp)
    | ok ipdev =>
      rw [hr] at h
      simp only [Except.ok.injEq] at h
      refine ⟨ipdev, rfl, ?_⟩
      rw [← h]
      split_ifs <;> simp only [String.append_assoc]

theorem podBody_fs (c : Collector) (n : Nat) (agents : List Host) (i : Nat)
    (host : String) (s f : Sections) (h : podBody c n agents i host s = .ok f) :
    f.fs = s.fs ++
      (if c.ProvFSType = "directory" then
        "\n[fs#" ++ fmt.Sprintf02d (i + 1) ++ "]\ntype = directory\npath = \x7benv.base_dir\x7d/pod"
          ++ fmt.Sprintf02d (i + 1)
          ++ "\npre_provision = docker network create \x7benv.subnet_name\x7d --subnet \x7benv.subnet_cidr\x7d\n\n"
      else
        "\n[fs#" ++ fmt.Sprintf02d (i + 1) ++ "]\ntype = " ++ c.ProvFSType ++ "\ndev = \x7bdisk#"
          ++ (if c.ProvFSPool = "lvm" then "10" ++ fmt.Sprintf02d (i + 1)
              else fmt.Sprintf02d (i + 1))
          ++ ".file\x7d\nmnt = \x7benv.base_dir\x7d/pod" ++ fmt.Sprintf02d (i + 1)
          ++ "\nsize = \x7benv.size\x7d\ndisable = true\nenable_on = \x7bnodes[$("
          ++ strconv.Itoa i ++ "//(" ++ strconv.Itoa n ++ "//\x7b#nodes\x7d))]\x7d\n\n") := by
  unfold podBody at h
  simp only at h
  split at h
  · exact absurd h (by simp)
  · split at h
    · exact absurd h (by simp)
    · split at h
      · exact absurd h (by simp)
      · simp only [Except.ok.injEq] at h
        rw [← h]
        split_ifs <;> simp only [String.append_assoc]

theorem podBody_returns (c : Collector) (n : Nat) (agents : List Host) (i : Nat)
    (host : String) (s : Sections) (hM : 0 < agents.length) (ipdev : String)
    (hr : resolveIpdev host (agents.get ⟨i % agents.length, Nat.mod_lt _ hM⟩).Ips ""
      = .ok ipdev) :
    ∃ f, podBody c n agents i host s = .ok f := by
  unfold podBody
  simp only
  rw [if_neg (by omega), index_of_lt agents _ (Nat.mod_lt _ hM)]
  simp only
  rw [hr]
  exact ⟨_, rfl⟩

/-! ## The manifest -/

theorem generateBody_ok_inv (c : Collector) (servers : List String) (agents : List Host)
    (conf : String) (err : GoError) (h : generateBody c servers agents = .ok (conf, err)) :
    ∃ s network, podLoop c servers.length agents 0 servers Sections.empty = .ok s ∧
      networkOf c = .ok network ∧
      conf = confHeader c ++ s.disk ++ s.fs
        ++ "\npost_provision = \x7bsvcmgr\x7d -s \x7bsvcname\x7d compliance fix --attach --moduleset mariadb.svc.mrm.db\n"
        ++ s.net ++ s.vm
        ++ "\n[env]\nnodes = " ++ c.ProvAgents ++ "\nsize = " ++ c.ProvDisk
        ++ "\ndb_img = mariadb:latest\n" ++ s.ip_pods ++ "\nmysql_root_password = " ++ c.ProvPwd
        ++ "\nnetwork = " ++ network ++ "\ngateway =  " ++ c.ProvNetGateway
        ++ "\nnetmask =  " ++ c.ProvNetMask ++ "\nbase_dir = /srv/\x7bsvcname\x7d\nmax_iops = "
        ++ c.ProvIops ++ "\nmax_mem = " ++ c.ProvMem ++ "\n\n" := by
  unfold generateBody at h
  simp only at h
  cases hs : podLoop c servers.length agents 0 servers
      { disk := "", fs := "", net := "", vm := "", ip_pods := "" } with
  | error p => rw [hs] at h; exact absurd h (by simp)
  | ok s =>
    rw [hs] at h
    simp only at h
    cases hn : networkOf c with
    | error p => rw [hn] at h; exact absurd h (by simp)
    | ok network =>
      rw [hn] at h
      simp only [Except.ok.injEq, Prod.mk.injEq] at h
      exact ⟨s, network, hs, rfl, h.1.symm⟩

theorem generateBody_returns (c : Collector) (servers : List String) (agents : List Host)
    (s : Sections) (network : String)
    (hs : podLoop c servers.length agents 0 servers Sections.empty = .ok s)
    (hn : networkOf c = .ok network) :
    ∃ conf, generateBody c servers agents = .ok (conf, none) := by
  unfold generateBody
  simp only
  have hs2 : podLoop c servers.length agents 0 servers
      { disk := "", fs := "", net := "", vm := "", ip_pods := "" } = .ok s := hs
  rw [hs2]
  simp only
  rw [hn]
  exact ⟨_, rfl⟩

theorem GenerateTemplate_ok_inv (c : Collector) (servers : List String) (agents : List Host)
    (conf : String) (err : GoError)
    (h : (GenerateTemplate c servers agents).1 = .ok (conf, err)) :
    5 ≤ (strings.Split c.ProvTemplate '.').length ∧
    generateBody (GenerateTemplate c servers agents).2 servers agents = .ok (conf, err) := by
  by_cases h5 : (strings.Split c.ProvTemplate '.').length < 5
  · rw [GenerateTemplate_short c servers agents h5] at h
    exact absurd h (by simp)
  · obtain ⟨t0, t1, t2, t3, t4, rest, ht⟩ := exists_fields_of_length (Nat.le_of_not_lt h5)
    rw [GenerateTemplate_of_fields c servers agents _ _ _ _ _ _ ht] at h ⊢
    exact ⟨Nat.le_of_not_lt h5, h⟩

theorem GenerateTemplate_returns (c : Collector) (servers : List String) (agents : List Host)
    (hwf : WellFormed c servers agents) :
    ∃ conf, (GenerateTemplate c servers agents).1 = .ok (conf, none) := by
  obtain ⟨h5, hag, hsv, hips, hmask⟩ := hwf
  obtain ⟨t0, t1, t2, t3, t4, rest, ht⟩ := exists_fields_of_length h5
  rw [GenerateTemplate_of_fields c servers agents _ _ _ _ _ _ ht]
  simp only
  obtain ⟨network, hn⟩ := networkOf_ok c hmask
  have hloop := podLoop_ok { c with ProvMicroSrv := t0, ProvFSType := t1, ProvFSPool := t2,
                                    ProvFSMode := t3, ProvFSPath := t4 }
    servers.length agents servers 0 Sections.empty (by
      intro k hk
      have hne : servers ≠ [] := by
        intro h0
        rw [h0] at hk
        exact absurd hk (by simp)
      have hM : 0 < agents.length := List.length_pos.mpr (hag hne)
      obtain ⟨r, hr, _⟩ := resolveIpdev_of_three (servers.get ⟨k, hk⟩)
        (agents.get ⟨(0 + k) % agents.length, Nat.mod_lt _ hM⟩).Ips ""
        (hsv _ (List.get_mem _ _ _))
        (hips _ (List.get_mem _ _ _))
      exact podBody_returns _ _ agents (0 + k) _ _ hM r hr)
  obtain ⟨s, hs⟩ := hloop
  exact generateBody_returns _ servers agents s network hs hn

theorem generateBody_sections (c : Collector) (servers : List String) (agents : List Host)
    (conf : String) (err : GoError) (h : generateBody c servers agents = .ok (conf, err)) :
    ∃ s network, podLoop c servers.length agents 0 servers Sections.empty = .ok s ∧
      networkOf c = .ok network ∧
      Contains conf s.disk ∧ Contains conf s.fs ∧ Contains conf s.net ∧ Contains conf s.vm ∧
      Contains conf s.ip_pods ∧
      Contains conf ("\nnetwork = " ++ network ++ "\ngateway =  ") := by
  obtain ⟨s, network, hs, hn, hconf⟩ := generateBody_ok_inv c servers agents conf err h
  refine ⟨s, network, hs, hn, ?_, ?_, ?_, ?_, ?_, ?_⟩
  · rw [hconf]
    repeat (first | exact Contains.append_left _ (Contains.refl _) | apply Contains.append_right)
  · rw [hconf]
    repeat (first | exact Contains.append_left _ (Contains.refl _) | apply Contains.append_right)
  · rw [hconf]
    repeat (first | exact Contains.append_left _ (Contains.refl _) | apply Contains.append_right)
  · rw [hconf]
    repeat (first | exact Contains.append_left _ (Contains.refl _) | apply Contains.append_right)
  · rw [hconf]
    repeat (first | exact Contains.append_left _ (Contains.refl _) | apply Contains.append_right)
  · have key : ∀ x a b d : String, Contains (x ++ a ++ b ++ d) (a ++ b ++ d) := by
      intro x a b d
      have hx : x ++ a ++ b ++ d = x ++ (a ++ b ++ d) := by simp only [String.append_assoc]
      rw [hx]
      exact Contains.append_left _ (Contains.refl _)
    rw [hconf]
    iterate 8 apply Contains.append_right
    exact key _ _ _ _

theorem manifest_fragments (c : Collector) (servers : List String) (agents : List Host)
    (conf : String) (err : GoError)
    (h : (GenerateTemplate c servers agents).1 = .ok (conf, err)) :
    ∀ k (hk : k < servers.length), ∃ f,
      podBody (GenerateTemplate c servers agents).2 servers.length agents k
        (servers.get ⟨k, hk⟩) Sections.empty = .ok f ∧
      Contains conf f.disk ∧ Contains conf f.fs ∧ Contains conf f.net ∧ Contains conf f.vm ∧
      Contains conf f.ip_pods := by
  obtain ⟨_, hb⟩ := GenerateTemplate_ok_inv c servers agents conf err h
  generalize (GenerateTemplate c servers agents).2 = c1 at hb ⊢
  obtain ⟨s, network, hs, _, hd, hfs, hnet, hvm, hip, _⟩ :=
    generateBody_sections c1 servers agents conf err hb
  intro k hk
  obtain ⟨f, pre, post, hf, hsf⟩ :=
    podLoop_fragments c1 servers.length agents servers 0 Sections.empty s hs k hk
  rw [Nat.zero_add] at hf
  refine ⟨f, hf, ?_, ?_, ?_, ?_, ?_⟩
  · refine Contains.trans hd ?_
    rw [hsf]
    exact Contains.append_right _ (Contains.append_left _ (Contains.refl _))
  · refine Contains.trans hfs ?_
    rw [hsf]
    exact Contains.append_right _ (Contains.append_left _ (Contains.refl _))
  · refine Contains.trans hnet ?_
    rw [hsf]
    exact Contains.append_right _ (Contains.append_left _ (Contains.refl _))
  · refine Contains.trans hvm ?_
    rw [hsf]
    exact Contains.append_right _ (Contains.append_left _ (Contains.refl _))
  · refine Contains.trans hip ?_
    rw [hsf]
    exact Contains.append_right _ (Contains.append_left _ (Contains.refl _))

theorem assignDescriptor_ProvTemplate (c : Collector) (tpl : List String) :
    (assignDescriptor c tpl).2.ProvTemplate = c.ProvTemplate := by
  match tpl with
  | [] => rfl
  | [_] => rfl
  | [_, _] => rfl
  | [_, _, _] => rfl
  | [_, _, _, _] => rfl
  | t0 :: t1 :: t2 :: t3 :: t4 :: rest => rw [assignDescriptor_fields]

theorem assignDescriptor_idem (c : Collector) (tpl : List String) :
    assignDescriptor (assignDescriptor c tpl).2 tpl = assignDescriptor c tpl := by
  match tpl with
  | [] => rfl
  | [_] => rfl
  | [_, _] => rfl
  | [_, _, _] => rfl
  | [_, _, _, _] => rfl
  | t0 :: t1 :: t2 :: t3 :: t4 :: rest => rw [assignDescriptor_fields, assignDescriptor_fields]

theorem GenerateTemplate_snd (c : Collector) (servers : List String) (agents : List Host) :
    (GenerateTemplate c servers agents).2
      = (assignDescriptor c (strings.Split c.ProvTemplate '.')).2 := by
  unfold GenerateTemplate
  generalize assignDescriptor c (strings.Split c.ProvTemplate '.') = r
  obtain ⟨o, c1⟩ := r
  cases o <;> rfl

theorem GenerateTemplate_repeat (c : Collector) (servers : List String) (agents : List Host) :
    GenerateTemplate (GenerateTemplate c servers agents).2 servers agents
      = GenerateTemplate c servers agents := by
  rw [GenerateTemplate_snd]
  have hid := assignDescriptor_idem c (strings.Split c.ProvTemplate '.')
  have htp := assignDescriptor_ProvTemplate c (strings.Split c.ProvTemplate '.')
  unfold GenerateTemplate
  rw [htp, hid]

/-! ## When the call returns -/

theorem sameSubnet_sound (a b : List String) (v : Bool) (h : sameSubnet a b = .ok v) :
    v = decide (a.take 3 = b.take 3) := by
  rcases a with _ | ⟨a0, _ | ⟨a1, _ | ⟨a2, ra⟩⟩⟩ <;>
    rcases b with _ | ⟨b0, _ | ⟨b1, _ | ⟨b2, rb⟩⟩⟩ <;>
    simp [sameSubnet, index] at h <;>
    (try split_ifs at h) <;> simp_all

theorem sameSubnet_ok_iff (a b : List String) (ha : a ≠ []) (hb : b ≠ []) :
    (∃ v, sameSubnet a b = .ok v) ↔
      (a[0]? ≠ b[0]? ∨ (2 ≤ a.length ∧ 2 ≤ b.length ∧
        (a[1]? ≠ b[1]? ∨ (3 ≤ a.length ∧ 3 ≤ b.length)))) := by
  rcases a with _ | ⟨a0, _ | ⟨a1, _ | ⟨a2, ra⟩⟩⟩ <;>
    rcases b with _ | ⟨b0, _ | ⟨b1, _ | ⟨b2, rb⟩⟩⟩ <;>
    simp [sameSubnet, index] at ha hb ⊢ <;>
    (try split_ifs) <;> (try simp_all) <;> (try tauto)

theorem sameSubnet_Split_ok_iff (addr host : String) :
    (∃ v, sameSubnet (strings.Split addr '.') (strings.Split host '.') = .ok v) ↔
      Comparable addr host :=
  sameSubnet_ok_iff _ _ (strings.Split_ne_nil _ _) (strings.Split_ne_nil _ _)

theorem resolveIpdev_sound (host : String) (ips : List Addr) (ipdev r : String)
    (h : resolveIpdev host ips ipdev = .ok r) :
    (∃ a ∈ ips, firstThree a.Addr = firstThree host ∧ r = a.Net_intf) ∨
    ((∀ a ∈ ips, firstThree a.Addr ≠ firstThree host) ∧ r = ipdev) := by
  induction ips generalizing ipdev with
  | nil =>
    simp only [resolveIpdev, Except.ok.injEq] at h
    exact Or.inr ⟨by simp, h.symm⟩
  | cons a rest ih =>
    rw [resolveIpdev] at h
    cases hs : sameSubnet (strings.Split a.Addr '.') (strings.Split host '.') with
    | error p => rw [hs] at h; exact absurd h (by simp)
    | ok v =>
      have hv := sameSubnet_sound _ _ v hs
      rw [hs] at h
      cases v with
      | true =>
        have hm : firstThree a.Addr = firstThree host := by
          simpa [firstThree] using hv.symm
        simp only at h
        rcases ih a.Net_intf h with ⟨x, hx, hxm, hxr⟩ | ⟨_, hr2⟩
        · exact Or.inl ⟨x, List.mem_cons_of_mem _ hx, hxm, hxr⟩
        · exact Or.inl ⟨a, List.mem_cons_self _ _, hm, hr2⟩
      | false =>
        have hm : firstThree a.Addr ≠ firstThree host := by
          simpa [firstThree] using hv.symm
        simp only at h
        rcases ih ipdev h with ⟨x, hx, hxm, hxr⟩ | ⟨hall, hr2⟩
        · exact Or.inl ⟨x, List.mem_cons_of_mem _ hx, hxm, hxr⟩
        · refine Or.inr ⟨?_, hr2⟩
          intro x hx
          rcases List.mem_cons.mp hx with h1 | h1
          · subst h1; exact hm
          · exact hall x h1

theorem resolveIpdev_ok_iff (host : String) (ips : List Addr) (ipdev : String) :
    (∃ r, resolveIpdev host ips ipdev = .ok r) ↔ ∀ a ∈ ips, Comparable a.Addr host := by
  induction ips generalizing ipdev with
  | nil => simp [resolveIpdev]
  | cons a rest ih =>
    rw [resolveIpdev]
    cases hs : sameSubnet (strings.Split a.Addr '.') (strings.Split host '.') with
    | error p =>
      have hc : ¬ Comparable a.Addr host := by
        intro hc
        obtain ⟨v, hv⟩ := (sameSubnet_Split_ok_iff a.Addr host).mpr hc
        rw [hs] at hv
        exact absurd hv (by simp)
      constructor
      · rintro ⟨r, hr⟩
        exact absurd hr (by simp)
      · intro hall
        exact absurd (hall a (List.mem_cons_self _ _)) hc
    | ok v =>
      have hc : Comparable a.Addr host := (sameSubnet_Split_ok_iff a.Addr host).mp ⟨v, hs⟩
      cases v with
      | true =>
        simp only
        rw [ih a.Net_intf]
        simp [hc]
      | false =>
        simp only
        rw [ih ipdev]
        simp [hc]

theorem zeroMasked_ok_iff (masks ips : List String) (i : Nat) :
    (∃ r, zeroMasked ips i masks = .ok r) ↔
      ∀ k, k < masks.length → masks[k]? = some "0" → i + k < ips.length := by
  induction masks generalizing ips i with
  | nil => simp [zeroMasked]
  | cons m rest ih =>
    rw [zeroMasked]
    by_cases hm : m = "0"
    · rw [if_pos hm]
      by_cases hi : i < ips.length
      · rw [if_pos hi, ih]
        simp only [List.length_set]
        constructor
        · intro h k hk hk0
          cases k with
          | zero => simpa using hi
          | succ k =>
            have := h k (by simpa using hk) (by simpa using hk0)
            omega
        · intro h k hk hk0
          have := h (k + 1) (by simpa using hk) (by simpa using hk0)
          omega
      · rw [if_neg hi]
        constructor
        · rintro ⟨r, hr⟩
          exact absurd hr (by simp)
        · intro h
          exact absurd (h 0 (by simp) (by simp [hm])) (by simpa using hi)
    · rw [if_neg hm, ih]
      constructor
      · intro h k hk hk0
        cases k with
        | zero => simp at hk0; exact absurd hk0 hm
        | succ k =>
          have := h k (by simpa using hk) (by simpa using hk0)
          omega
      · intro h k hk hk0
        have := h (k + 1) (by simpa using hk) (by simpa using hk0)
        omega

theorem networkOf_ok_iff (c : Collector) : (∃ network, networkOf c = .ok network) ↔ MaskFits c := by
  have h := zeroMasked_ok_iff (strings.Split c.ProvNetMask '.')
    (strings.Split c.ProvNetGateway '.') 0
  simp only [Nat.zero_add] at h
  unfold MaskFits
  rw [← h]
  unfold networkOf
  cases zeroMasked (strings.Split c.ProvNetGateway '.') 0 (strings.Split c.ProvNetMask '.') with
  | error p => simp
  | ok r => simp

theorem podBody_ok_iff (c : Collector) (n : Nat) (agents : List Host) (i : Nat)
    (host : String) (s : Sections) :
    (∃ f, podBody c n agents i host s = .ok f) ↔
      ∃ hM : 0 < agents.length,
        ∀ a ∈ (agents.get ⟨i % agents.length, Nat.mod_lt _ hM⟩).Ips, Comparable a.Addr host := by
  constructor
  · rintro ⟨f, hf⟩
    obtain ⟨hM, ipdev, hr, _⟩ := podBody_resolved c n agents i host s f hf
    exact ⟨hM, (resolveIpdev_ok_iff _ _ _).mp ⟨ipdev, hr⟩⟩
  · rintro ⟨hM, hall⟩
    obtain ⟨ipdev, hr⟩ := (resolveIpdev_ok_iff host _ "").mpr hall
    exact podBody_returns c n agents i host s hM ipdev hr

theorem podLoop_ok_iff (c : Collector) (n : Nat) (agents : List Host) (hosts : List String)
    (i : Nat) (s : Sections) :
    (∃ s1, podLoop c n agents i hosts s = .ok s1) ↔
      ∀ k (hk : k < hosts.length), ∃ f,
        podBody c n agents (i + k) (hosts.get ⟨k, hk⟩) Sections.empty = .ok f := by
  constructor
  · rintro ⟨s1, hs1⟩ k hk
    obtain ⟨f, _, _, hf, _⟩ := podLoop_fragments c n agents hosts i s s1 hs1 k hk
    exact ⟨f, hf⟩
  · exact podLoop_ok c n agents hosts i s

theorem NoPanic_of_WellFormed (c : Collector) (servers : List String) (agents : List Host)
    (h : WellFormed c servers agents) : NoPanic c servers agents := by
  obtain ⟨h5, hag, hsv, hips, hmask⟩ := h
  refine ⟨h5, hag, ?_, ?_⟩
  · intro i hi hM a ha
    have h1 := hips _ (List.get_mem agents _ _) a ha
    have h2 := hsv _ (List.get_mem servers i hi)
    unfold Comparable
    right
    exact ⟨by omega, by omega, Or.inr ⟨h1, h2⟩⟩
  · intro k hk _
    omega

theorem GenerateTemplate_returns_iff (c : Collector) (servers : List String)
    (agents : List Host) :
    (∃ conf, (GenerateTemplate c servers agents).1 = .ok (conf, none)) ↔
      NoPanic c servers agents := by
  constructor
  · rintro ⟨conf, hok⟩
    obtain ⟨h5, _⟩ := GenerateTemplate_ok_inv c servers agents conf none hok
    obtain ⟨t0, t1, t2, t3, t4, rest, ht⟩ := exists_fields_of_length h5
    rw [GenerateTemplate_of_fields c servers agents _ _ _ _ _ _ ht] at hok
    obtain ⟨s, network, hs, hn, _⟩ := generateBody_ok_inv _ servers agents conf none hok
    have hbody := (podLoop_ok_iff _ _ agents servers 0 Sections.empty).mp ⟨s, hs⟩
    have hpod : ∀ i (hi : i < servers.length), ∃ hM : 0 < agents.length,
        ∀ a ∈ (agents.get ⟨i % agents.length, Nat.mod_lt _ hM⟩).Ips,
          Comparable a.Addr (servers.get ⟨i, hi⟩) := by
      intro i hi
      have := hbody i hi
      rw [Nat.zero_add] at this
      exact (podBody_ok_iff _ _ agents i _ _).mp this
    refine ⟨h5, ?_, ?_, ?_⟩
    · intro hne
      obtain ⟨hM, _⟩ := hpod 0 (List.length_pos.mpr hne)
      exact List.length_pos.mp hM
    · intro i hi hM
      obtain ⟨_, hall⟩ := hpod i hi
      exact hall
    · have hn2 : networkOf c = .ok network := hn
      exact (networkOf_ok_iff c).mp ⟨network, hn2⟩
  · rintro ⟨h5, hag, hcmp, hmask⟩
    obtain ⟨t0, t1, t2, t3, t4, rest, ht⟩ := exists_fields_of_length h5
    rw [GenerateTemplate_of_fields c servers agents _ _ _ _ _ _ ht]
    simp only
    obtain ⟨network, hn⟩ := (networkOf_ok_iff c).mpr hmask
    obtain ⟨s, hs⟩ := (podLoop_ok_iff
      { c with ProvMicroSrv := t0, ProvFSType := t1, ProvFSPool := t2,
               ProvFSMode := t3, ProvFSPath := t4 }
      servers.length agents servers 0 Sections.empty).mpr (by
        intro k hk
        have hne : servers ≠ [] := by
          intro h0
          rw [h0] at hk
          exact absurd hk (by simp)
        have hM : 0 < agents.length := List.length_pos.mpr (hag hne)
        rw [Nat.zero_add]
        exact (podBody_ok_iff _ _ agents k _ _).mpr ⟨hM, hcmp k hk hM⟩)
    exact generateBody_returns _ servers agents s network hs hn

/-! # The claims -/

/-! ## C1 -/

/-- C1, as stated, fails: a descriptor whose path contains a dot has six
fields, and `GenerateTemplate` returns a manifest and a nil error for it. -/
theorem descriptor_field_count_counterexample :
    (strings.Split "docker.ext4.lvm.loopback./data.img" '.').length ≠ 5 ∧
    ∃ conf, conf ≠ "" ∧
      (GenerateTemplate (mkCollector "docker.ext4.lvm.loopback./data.img" "192.168.1.1"
        "255.255.255.0") ["10.0.0.5"] [mkHost "node1" [mkAddr "10.0.0.9" "eth0"]]).1
        = .ok (conf, none) :=
  ⟨by decide, _, by decide, rfl⟩

/-- C1 (amended): a descriptor with fewer than 5 dot-separated fields ends the
call in an index-out-of-range panic at the first missing field, so no manifest
is returned; a descriptor with more than 5 fields is accepted, and the outcome
is that of the descriptor made of its first five fields; and no call returns
a non-nil error. -/
theorem descriptor_field_count (c : Collector) (servers : List String) (agents : List Host) :
    ((strings.Split c.ProvTemplate '.').length < 5 →
      (GenerateTemplate c servers agents).1 =
        .error (.indexOutOfRange (strings.Split c.ProvTemplate '.').length
          (strings.Split c.ProvTemplate '.').length)) ∧
    (5 < (strings.Split c.ProvTemplate '.').length →
      (GenerateTemplate c servers agents).1 =
        (GenerateTemplate
          { c with ProvTemplate :=
              strings.Join ((strings.Split c.ProvTemplate '.').take 5) "." }
          servers agents).1) ∧
    (∀ conf err, (GenerateTemplate c servers agents).1 = .ok (conf, err) → err = none) := by
  refine ⟨GenerateTemplate_short c servers agents, ?_, ?_⟩
  · intro h
    obtain ⟨t0, t1, t2, t3, t4, rest, hs⟩ := exists_fields_of_length (Nat.le_of_lt h)
    have hsplit : strings.Split
        ({ c with ProvTemplate :=
            strings.Join ((strings.Split c.ProvTemplate '.').take 5) "." }).ProvTemplate '.'
        = t0 :: t1 :: t2 :: t3 :: t4 :: [] := by
      show strings.Split (strings.Join ((strings.Split c.ProvTemplate '.').take 5) ".") '.' = _
      have hpieces := strings.Split_no_sep c.ProvTemplate '.'
      rw [hs] at hpieces ⊢
      have := strings.Split_Join [t0, t1, t2, t3, t4] '.' (by simp)
        (fun p hp => hpieces p (by
          simp only [List.mem_cons] at hp ⊢
          tauto))
      simpa using this
    rw [GenerateTemplate_of_fields c servers agents _ _ _ _ _ _ hs,
      GenerateTemplate_of_fields _ servers agents _ _ _ _ _ _ hsplit]
    exact (generateBody_ProvTemplate _ _ servers agents).symm
  · intro conf err h
    by_cases h5 : (strings.Split c.ProvTemplate '.').length < 5
    · rw [GenerateTemplate_short c servers agents h5] at h
      exact absurd h (by simp)
    · obtain ⟨t0, t1, t2, t3, t4, rest, hs⟩ := exists_fields_of_length (Nat.le_of_not_lt h5)
      rw [GenerateTemplate_of_fields c servers agents _ _ _ _ _ _ hs] at h
      exact generateBody_error_nil _ _ _ _ _ h

/-- C1 (amended), at the descriptor `docker.ext4`: two fields, so the call
panics on `tpl[2]`. -/
theorem descriptor_field_count_witness :
    (strings.Split (mkCollector "docker.ext4" "192.168.1.1" "255.255.255.0").ProvTemplate
      '.').length < 5 ∧
    (GenerateTemplate (mkCollector "docker.ext4" "192.168.1.1" "255.255.255.0")
      ["10.0.0.5"] []).1 =
      .error (.indexOutOfRange
        (strings.Split (mkCollector "docker.ext4" "192.168.1.1" "255.255.255.0").ProvTemplate
          '.').length
        (strings.Split (mkCollector "docker.ext4" "192.168.1.1" "255.255.255.0").ProvTemplate
          '.').length) :=
  ⟨by decide, (descriptor_field_count _ _ _).1 (by decide)⟩

/-! ## C2 -/

/-- C2, as stated, fails: with a valid descriptor, one endpoint and no
allocation host the call does not return an error value; it ends in the
run-time panic `integer divide by zero` raised by `i%len(agents)`. -/
theorem no_allocation_hosts_counterexample :
    (strings.Split "docker.ext4.lvm.loopback./data" '.').length = 5 ∧
    (GenerateTemplate (mkCollector "docker.ext4.lvm.loopback./data" "192.168.1.1"
        "255.255.255.0") ["10.0.0.5"] []).1 = .error .integerDivideByZero ∧
    ¬ ∃ conf err,
      (GenerateTemplate (mkCollector "docker.ext4.lvm.loopback./data" "192.168.1.1"
        "255.255.255.0") ["10.0.0.5"] []).1 = .ok (conf, some err) := by
  have h : (GenerateTemplate (mkCollector "docker.ext4.lvm.loopback./data" "192.168.1.1"
        "255.255.255.0") ["10.0.0.5"] []).1 = .error .integerDivideByZero := rfl
  refine ⟨by decide, h, ?_⟩
  rintro ⟨conf, err, h1⟩
  rw [h] at h1
  exact absurd h1 (by simp)

/-- C2 (amended): for every 5-field descriptor and every non-empty endpoint
list, a call with an empty allocation host list ends in the run-time panic
`integer divide by zero`; no manifest text, in part or whole, is returned. -/
theorem no_allocation_hosts (c : Collector) (servers : List String)
    (h5 : (strings.Split c.ProvTemplate '.').length = 5) (hs : servers ≠ []) :
    (GenerateTemplate c servers []).1 = .error .integerDivideByZero := by
  obtain ⟨t0, t1, t2, t3, t4, rest, ht⟩ := exists_fields_of_length (Nat.le_of_eq h5.symm)
  rw [GenerateTemplate_of_fields c servers [] _ _ _ _ _ _ ht]
  cases servers with
  | nil => exact absurd rfl hs
  | cons host rest => simp [generateBody, podLoop, podBody]

/-- C2 (amended), at the end-to-end descriptor with one endpoint. -/
theorem no_allocation_hosts_witness :
    (GenerateTemplate (mkCollector "docker.ext4.lvm.loopback./data" "192.168.1.1"
        "255.255.255.0") ["10.0.0.5"] []).1 = .error .integerDivideByZero :=
  no_allocation_hosts _ _ (by decide) (by decide)

/-! ## C3 -/

theorem Sprintf02d_eq (n : Nat) :
    fmt.Sprintf02d n = if n < 10 then "0" ++ strconv.Itoa n else strconv.Itoa n := by
  unfold fmt.Sprintf02d strconv.Itoa
  by_cases h : n < 10
  · rw [if_pos h, toDigits_of_lt n h]
    rfl
  · rw [if_neg h]
    have := toDigits_length_of_ge n (Nat.le_of_not_lt h)
    have h0 : 2 - (Nat.toDigits 10 n).length = 0 := by omega
    rw [h0]
    rfl

theorem podBody_ip_pods (c : Collector) (n : Nat) (agents : List Host) (i : Nat)
    (host : String) (s s1 : Sections) (h : podBody c n agents i host s = .ok s1) :
    s1.ip_pods = s.ip_pods ++ "\nip_pod" ++ fmt.Sprintf02d (i + 1) ++ " = " ++ host ++ "\n" := by
  unfold podBody at h
  simp only at h
  split at h
  · exact absurd h (by simp)
  · split at h
    · exact absurd h (by simp)
    · split at h
      · exact absurd h (by simp)
      · simp only [Except.ok.injEq] at h
        rw [← h]

/-- C3, as stated, fails: the pod at position 99 has the three-character
identifier `100`, which is not greater, as a string, than the identifier
`99` of the pod before it. -/
theorem pod_identifier_counterexample :
    (fmt.Sprintf02d (99 + 1)).length = 3 ∧
    ¬ (fmt.Sprintf02d (98 + 1) < fmt.Sprintf02d (99 + 1)) := by
  refine ⟨by decide, ?_⟩
  rw [String.lt_iff_toList_lt]
  decide

/-- C3 (amended): in every manifest the call returns, the fragments of the
pod at endpoint position `i` carry the identifier `Sprintf("%02d", i+1)`: the
binding `ip_pod<id> = <endpoint i>`, the section `[ip#<id>]` with its pod
tags and the section `[fs#<id>]`; this identifier is the decimal rendering of
`i+1` with one leading zero when `i+1 < 10`; for the first 99 positions it
has exactly 2 characters and is strictly smaller, as a string, than the
identifier of every later position below 99; position 0 yields `01` and
position 9 yields `10`; and the call returns exactly on the inputs on which
no bounds check fails, in particular on well-formed inputs. -/
theorem pod_identifier (c : Collector) (servers : List String) (agents : List Host) :
    (∀ conf err, (GenerateTemplate c servers agents).1 = .ok (conf, err) →
      ∀ i (hi : i < servers.length), ∃ f,
        podBody (GenerateTemplate c servers agents).2 servers.length agents i
          (servers.get ⟨i, hi⟩) Sections.empty = .ok f ∧
        Contains conf f.ip_pods ∧ Contains conf f.net ∧ Contains conf f.fs ∧
        f.ip_pods = "\nip_pod" ++ fmt.Sprintf02d (i + 1) ++ " = " ++ servers.get ⟨i, hi⟩
          ++ "\n" ∧
        (∃ rest, f.net = "\n[ip#" ++ fmt.Sprintf02d (i + 1)
          ++ "]\ntags = sm sm.container sm.container.pod" ++ fmt.Sprintf02d (i + 1)
          ++ " pod" ++ fmt.Sprintf02d (i + 1) ++ "\n" ++ rest) ∧
        (∃ rest, f.fs = "\n[fs#" ++ fmt.Sprintf02d (i + 1) ++ "]\ntype = " ++ rest)) ∧
    (∀ i, fmt.Sprintf02d (i + 1) =
      (if i + 1 < 10 then "0" ++ strconv.Itoa (i + 1) else strconv.Itoa (i + 1))) ∧
    (∀ i, i < 99 → (fmt.Sprintf02d (i + 1)).length = 2) ∧
    (∀ i j, i < j → j < 99 → fmt.Sprintf02d (i + 1) < fmt.Sprintf02d (j + 1)) ∧
    fmt.Sprintf02d (0 + 1) = "01" ∧ fmt.Sprintf02d (9 + 1) = "10" ∧
    ((∃ conf, (GenerateTemplate c servers agents).1 = .ok (conf, none)) ↔
      NoPanic c servers agents) ∧
    (WellFormed c servers agents →
      ∃ conf, (GenerateTemplate c servers agents).1 = .ok (conf, none)) := by
  refine ⟨?_, fun i => Sprintf02d_eq (i + 1), fun i h => pods_two_chars i h, ?_, by decide,
    by decide, GenerateTemplate_returns_iff c servers agents,
    GenerateTemplate_returns c servers agents⟩
  · intro conf err hok i hi
    obtain ⟨f, hf, _, hfs, hnet, _, hip⟩ := manifest_fragments c servers agents conf err hok i hi
    refine ⟨f, hf, hip, hnet, hfs, ?_, ?_, ?_⟩
    · have h := podBody_ip_pods _ _ _ _ _ _ _ hf
      rw [h]
      simp only [Sections.empty, String.empty_append]
    · obtain ⟨_, ipdev, _, h⟩ := podBody_resolved _ _ _ _ _ _ _ hf
      refine ⟨(if (GenerateTemplate c servers agents).2.ProvMicroSrv = "docker" then
            "\ntype = docker\nipdev = br0\ncontainer_rid = container#00\n\n"
          else "\nipdev = " ++ ipdev ++ "\n")
        ++ "\nipname = \x7benv.ip_pod" ++ fmt.Sprintf02d (i + 1)
        ++ "\x7d\nnetmask = \x7benv.netmask\x7d\nnetwork = \x7benv.network\x7d\ngateway = \x7benv.gateway\x7d\ndel_net_route = true\ndisable = true\nenable_on = \x7bnodes[$("
        ++ strconv.Itoa i ++ "//(" ++ strconv.Itoa servers.length
        ++ "//\x7b#nodes\x7d))]\x7d\n\n", ?_⟩
      rw [h]
      simp only [Sections.empty, String.append_assoc, String.empty_append]
    · have h := podBody_fs _ _ _ _ _ _ _ hf
      by_cases hdir : (GenerateTemplate c servers agents).2.ProvFSType = "directory"
      · rw [if_pos hdir] at h
        have hlit : ("]\ntype = directory\npath = \x7benv.base_dir\x7d/pod" : String)
            = "]\ntype = " ++ "directory\npath = \x7benv.base_dir\x7d/pod" := by decide
        rw [hlit] at h
        refine ⟨"directory\npath = \x7benv.base_dir\x7d/pod" ++ fmt.Sprintf02d (i + 1)
          ++ "\npre_provision = docker network create \x7benv.subnet_name\x7d --subnet \x7benv.subnet_cidr\x7d\n\n", ?_⟩
        rw [h]
        simp only [Sections.empty, String.append_assoc, String.empty_append]
      · rw [if_neg hdir] at h
        refine ⟨(GenerateTemplate c servers agents).2.ProvFSType ++ "\ndev = \x7bdisk#"
          ++ (if (GenerateTemplate c servers agents).2.ProvFSPool = "lvm"
              then "10" ++ fmt.Sprintf02d (i + 1) else fmt.Sprintf02d (i + 1))
          ++ ".file\x7d\nmnt = \x7benv.base_dir\x7d/pod" ++ fmt.Sprintf02d (i + 1)
          ++ "\nsize = \x7benv.size\x7d\ndisable = true\nenable_on = \x7bnodes[$("
          ++ strconv.Itoa i ++ "//(" ++ strconv.Itoa servers.length
          ++ "//\x7b#nodes\x7d))]\x7d\n\n", ?_⟩
        rw [h]
        simp only [Sections.empty, String.append_assoc, String.empty_append]
  · intro i j hij hj
    rw [String.lt_iff_toList_lt]
    exact pods_increasing j hj i hij

/-- C3 (amended), at the end-to-end scenario: the manifest binds `ip_pod02`
to the second endpoint, and the identifiers `09` and `10` of positions 8 and
9 have two characters and are in increasing order. -/
theorem pod_identifier_witness :
    Contains
      (manifestOf (GenerateTemplate (mkCollector "docker.ext4.lvm.loopback./data" "192.168.1.1"
        "255.255.255.0") ["10.0.0.5", "10.0.0.6"]
        [mkHost "node1" [mkAddr "10.0.0.9" "eth0"]]).1)
      ("\nip_pod" ++ fmt.Sprintf02d (1 + 1) ++ " = " ++ "10.0.0.6" ++ "\n") ∧
    (fmt.Sprintf02d (8 + 1)).length = 2 ∧
    fmt.Sprintf02d (8 + 1) < fmt.Sprintf02d (9 + 1) := by
  have h := pod_identifier
    (mkCollector "docker.ext4.lvm.loopback./data" "192.168.1.1" "255.255.255.0")
    ["10.0.0.5", "10.0.0.6"] [mkHost "node1" [mkAddr "10.0.0.9" "eth0"]]
  refine ⟨?_, h.2.2.1 8 (by decide), h.2.2.2.1 8 9 (by decide) (by decide)⟩
  obtain ⟨f, _, hc, _, _, hip, _⟩ := h.1
    (manifestOf (GenerateTemplate (mkCollector "docker.ext4.lvm.loopback./data" "192.168.1.1"
      "255.255.255.0") ["10.0.0.5", "10.0.0.6"]
      [mkHost "node1" [mkAddr "10.0.0.9" "eth0"]]).1) none rfl 1 (by decide)
  exact hip ▸ hc

/-! ## C4 -/

theorem networkOf_four (c : Collector)
    (hg : (strings.Split c.ProvNetGateway '.').length = 4)
    (hm : (strings.Split c.ProvNetMask '.').length = 4) :
    networkOf c = .ok (strings.Join
      (List.zipWith (fun g m => if m = "0" then "0" else g)
        (strings.Split c.ProvNetGateway '.') (strings.Split c.ProvNetMask '.')) ".") := by
  unfold networkOf
  match hgs : strings.Split c.ProvNetGateway '.', hms : strings.Split c.ProvNetMask '.' with
  | [g0, g1, g2, g3], [m0, m1, m2, m3] => rw [zeroMasked_four]
  | [], _ | [_], _ | [_, _], _ | [_, _, _], _ | _ :: _ :: _ :: _ :: _ :: _, _ =>
    rw [hgs] at hg; simp at hg
  | [_, _, _, _], [] | [_, _, _, _], [_] | [_, _, _, _], [_, _] | [_, _, _, _], [_, _, _]
  | [_, _, _, _], _ :: _ :: _ :: _ :: _ :: _ =>
    rw [hms] at hm; simp at hm

/-- C4: when the gateway and the netmask each have exactly four dot-separated
components, the network value is the gateway with component `k` replaced by
`0` exactly when component `k` of the netmask is the string `0`, the other
components unchanged; every manifest the call returns carries it on the
`network = ` line of the `[env]` block, and the call returns on well-formed
inputs; gateway `192.168.1.1` gives `192.168.1.0` under mask `255.255.255.0`
and `192.168.0.0` under mask `255.255.0.0`. -/
theorem env_network (c : Collector)
    (hg : (strings.Split c.ProvNetGateway '.').length = 4)
    (hm : (strings.Split c.ProvNetMask '.').length = 4) :
    networkOf c = .ok (strings.Join
      (List.zipWith (fun g m => if m = "0" then "0" else g)
        (strings.Split c.ProvNetGateway '.') (strings.Split c.ProvNetMask '.')) ".") ∧
    (∀ servers agents conf err, (GenerateTemplate c servers agents).1 = .ok (conf, err) →
      Contains conf ("\nnetwork = " ++ strings.Join
        (List.zipWith (fun g m => if m = "0" then "0" else g)
          (strings.Split c.ProvNetGateway '.') (strings.Split c.ProvNetMask '.')) "."
        ++ "\ngateway =  ")) ∧
    (∀ servers agents, WellFormed c servers agents →
      ∃ conf, (GenerateTemplate c servers agents).1 = .ok (conf, none)) ∧
    (c.ProvNetGateway = "192.168.1.1" → c.ProvNetMask = "255.255.255.0" →
      networkOf c = .ok "192.168.1.0") ∧
    (c.ProvNetGateway = "192.168.1.1" → c.ProvNetMask = "255.255.0.0" →
      networkOf c = .ok "192.168.0.0") := by
  refine ⟨networkOf_four c hg hm, ?_, fun servers agents hwf =>
    GenerateTemplate_returns c servers agents hwf, ?_, ?_⟩
  · intro servers agents conf err hok
    obtain ⟨h5, _⟩ := GenerateTemplate_ok_inv c servers agents conf err hok
    obtain ⟨t0, t1, t2, t3, t4, rest, ht⟩ := exists_fields_of_length h5
    rw [GenerateTemplate_of_fields c servers agents _ _ _ _ _ _ ht] at hok
    obtain ⟨s, network, _, hn, _, _, _, _, _, hc⟩ :=
      generateBody_sections _ servers agents conf err hok
    have hn2 : networkOf c = .ok network := hn
    rw [networkOf_four c hg hm] at hn2
    simp only [Except.ok.injEq] at hn2
    rw [hn2]
    exact hc
  · intro h1 h2
    unfold networkOf
    rw [h1, h2]
    rfl
  · intro h1 h2
    unfold networkOf
    rw [h1, h2]
    rfl

/-- C4, at gateway `192.168.1.1` and netmask `255.255.255.0`. -/
theorem env_network_witness :
    networkOf (mkCollector "docker.ext4.lvm.loopback./data" "192.168.1.1" "255.255.255.0")
      = .ok "192.168.1.0" :=
  (env_network (mkCollector "docker.ext4.lvm.loopback./data" "192.168.1.1" "255.255.255.0")
    (by decide) (by decide)).2.2.2.1 rfl rfl

/-! ## C5 -/

/-- C5, as stated, fails: with filesystem type `directory` the filesystem
fragment of pod `01` is the directory fragment, which has no `dev` line and
no disk cross-reference, although the pool strategy is `lvm`. -/
theorem fs_disk_reference_counterexample :
    podBody
      (GenerateTemplate (mkCollector "docker.directory.lvm.loopback./data" "192.168.1.1"
        "255.255.255.0") ["10.0.0.5"] [mkHost "node1" [mkAddr "10.0.0.9" "eth0"]]).2
      1 [mkHost "node1" [mkAddr "10.0.0.9" "eth0"]] 0 "10.0.0.5" Sections.empty
      = .ok
        { disk := "\n[disk#01]\ntype = loop\nfile = /data/\x7bsvcname\x7d_pod01.dsk\nsize = \x7benv.size\x7d\n\n\n[disk#1001]\nname = \x7bsvcname\x7d\ntype = lvm\npvs = \x7bdisk#01.file\x7d\n\n",
          fs := "\n[fs#01]\ntype = directory\npath = \x7benv.base_dir\x7d/pod01\npre_provision = docker network create \x7benv.subnet_name\x7d --subnet \x7benv.subnet_cidr\x7d\n\n",
          net := "\n[ip#01]\ntags = sm sm.container sm.container.pod01 pod01\n\ntype = docker\nipdev = br0\ncontainer_rid = container#00\n\n\nipname = \x7benv.ip_pod01\x7d\nnetmask = \x7benv.netmask\x7d\nnetwork = \x7benv.network\x7d\ngateway = \x7benv.gateway\x7d\ndel_net_route = true\ndisable = true\nenable_on = \x7bnodes[$(0//(1//\x7b#nodes\x7d))]\x7d\n\n",
          vm := "\n[container#01]\ntags = pod01\ntype = docker\nrun_image = \x7benv.db_img\x7d\nrun_args = --net=container:\x7bsvcname\x7d.container.00\n   -e MYSQL_ROOT_PASSWORD=\x7benv.mysql_root_password\x7d\n   -e MYSQL_INITDB_SKIP_TZINFO=yes\n   -v /etc/localtime:/etc/localtime:ro\n   -v \x7benv.base_dir\x7d/pod01/data:/var/lib/mysql:rw\n   -v \x7benv.base_dir\x7d/pod01/conf/my.cnf:/etc/mysql/my.cnf:rw\n   -v \x7benv.base_dir\x7d/pod01/init:/docker-entrypoint-initdb.d:rw\ndisable = true\nenable_on = \x7bnodes[$(0//(1//\x7b#nodes\x7d))]\x7d\n\n",
          ip_pods := "\nip_pod01 = 10.0.0.5\n" } ∧
    ¬ Contains
      "\n[fs#01]\ntype = directory\npath = \x7benv.base_dir\x7d/pod01\npre_provision = docker network create \x7benv.subnet_name\x7d --subnet \x7benv.subnet_cidr\x7d\n\n"
      "disk#" :=
  ⟨rfl, by decide⟩

/-- C5 (amended): in every manifest the call returns, the filesystem fragment
of every pod is present; when the filesystem type is not `directory` it
opens with the section `[fs#NN]`, the type line and the line
`dev = {disk#10NN.file}` when the pool strategy is `lvm`, `dev = {disk#NN.file}`
otherwise; when the filesystem type is `directory` the fragment is the
directory fragment, without a `dev` line; and the call returns on well-formed
inputs. -/
theorem fs_disk_reference (c : Collector) (servers : List String) (agents : List Host) :
    (∀ conf err, (GenerateTemplate c servers agents).1 = .ok (conf, err) →
      ∀ i (hi : i < servers.length), ∃ f,
        podBody (GenerateTemplate c servers agents).2 servers.length agents i
          (servers.get ⟨i, hi⟩) Sections.empty = .ok f ∧
        Contains conf f.fs ∧
        ((GenerateTemplate c servers agents).2.ProvFSType ≠ "directory" →
          ∃ rest, f.fs = "\n[fs#" ++ fmt.Sprintf02d (i + 1) ++ "]\ntype = "
            ++ (GenerateTemplate c servers agents).2.ProvFSType ++ "\ndev = \x7bdisk#"
            ++ (if (GenerateTemplate c servers agents).2.ProvFSPool = "lvm"
                then "10" ++ fmt.Sprintf02d (i + 1) else fmt.Sprintf02d (i + 1))
            ++ ".file\x7d\n" ++ rest) ∧
        ((GenerateTemplate c servers agents).2.ProvFSType = "directory" →
          f.fs = "\n[fs#" ++ fmt.Sprintf02d (i + 1)
            ++ "]\ntype = directory\npath = \x7benv.base_dir\x7d/pod" ++ fmt.Sprintf02d (i + 1)
            ++ "\npre_provision = docker network create \x7benv.subnet_name\x7d --subnet \x7benv.subnet_cidr\x7d\n\n")) ∧
    (WellFormed c servers agents →
      ∃ conf, (GenerateTemplate c servers agents).1 = .ok (conf, none)) := by
  refine ⟨?_, GenerateTemplate_returns c servers agents⟩
  intro conf err hok i hi
  obtain ⟨f, hf, _, hfs, _, _, _⟩ := manifest_fragments c servers agents conf err hok i hi
  refine ⟨f, hf, hfs, ?_, ?_⟩
  · intro hdir
    have h := podBody_fs _ _ _ _ _ _ _ hf
    rw [if_neg hdir] at h
    have hlit : (".file\x7d\nmnt = \x7benv.base_dir\x7d/pod" : String)
        = ".file\x7d\n" ++ "mnt = \x7benv.base_dir\x7d/pod" := by decide
    rw [hlit] at h
    refine ⟨"mnt = \x7benv.base_dir\x7d/pod" ++ fmt.Sprintf02d (i + 1)
          ++ "\nsize = \x7benv.size\x7d\ndisable = true\nenable_on = \x7bnodes[$("
          ++ strconv.Itoa i ++ "//(" ++ strconv.Itoa servers.length
          ++ "//\x7b#nodes\x7d))]\x7d\n\n", ?_⟩
    rw [h]
    simp only [Sections.empty, String.append_assoc, String.empty_append]
  · intro hdir
    have h := podBody_fs _ _ _ _ _ _ _ hf
    rw [if_pos hdir] at h
    rw [h]
    simp only [Sections.empty, String.empty_append]

/-- C5 (amended), at the end-to-end scenario: the call returns a manifest. -/
theorem fs_disk_reference_witness :
    ∃ conf, (GenerateTemplate (mkCollector "docker.ext4.lvm.loopback./data" "192.168.1.1"
        "255.255.255.0") ["10.0.0.5", "10.0.0.6"]
        [mkHost "node1" [mkAddr "10.0.0.9" "eth0"]]).1 = .ok (conf, none) :=
  (fs_disk_reference _ _ _).2 (by decide)

/-! ## C6 -/

/-- C6, as stated, fails: with a non-containerized descriptor, a host whose
only address is the malformed `10` (no address of the host shares the first
three components of the endpoint `10.0.0.5`) ends the call in an
index-out-of-range panic on `ipsagents[1]` instead of leaving `ipdev`
empty. -/
theorem ipdev_resolution_counterexample :
    (GenerateTemplate (mkCollector "system.ext4.none.physical./dev/sdb" "192.168.1.1"
        "255.255.255.0") ["10.0.0.5"] [mkHost "node1" [mkAddr "10" "eth0"]]).1
      = .error (.indexOutOfRange 1 1) ∧
    (GenerateTemplate (mkCollector "system.ext4.none.physical./dev/sdb" "192.168.1.1"
        "255.255.255.0") ["10.0.0.5"] [mkHost "node1" [mkAddr "10" "eth0"]]).2.ProvMicroSrv
      ≠ "docker" ∧
    firstThree "10" ≠ firstThree "10.0.0.5" :=
  ⟨rfl, by decide, by decide⟩

/-- C6 (amended): for a non-containerized descriptor, every host list
(any addresses, malformed ones included) and every endpoint list: in every
manifest the call returns, the manifest contains for every pod the pod's
network fragment, whose `ipdev` value is the interface name of an address of
host `i mod M` with the same first three components as the endpoint when
there is one, and the empty string when there is none; a missing interface
does not abort the call: it returns a manifest exactly when the descriptor
has at least 5 fields, there is a host when there is an endpoint, every
netmask component `0` has a gateway component at its position, and no
comparison of a host address with its endpoint indexes a missing component;
in particular it returns on well-formed inputs. -/
theorem ipdev_resolution (c : Collector) (servers : List String) (agents : List Host)
    (hnd : (GenerateTemplate c servers agents).2.ProvMicroSrv ≠ "docker") :
    (∀ conf err, (GenerateTemplate c servers agents).1 = .ok (conf, err) →
      ∀ i (hi : i < servers.length), ∃ (hM : 0 < agents.length) (ipdev : String) (f : Sections),
        podBody (GenerateTemplate c servers agents).2 servers.length agents i
          (servers.get ⟨i, hi⟩) Sections.empty = .ok f ∧
        Contains conf f.net ∧
        f.net = "\n[ip#" ++ fmt.Sprintf02d (i + 1)
          ++ "]\ntags = sm sm.container sm.container.pod" ++ fmt.Sprintf02d (i + 1)
          ++ " pod" ++ fmt.Sprintf02d (i + 1) ++ "\n"
          ++ "\nipdev = " ++ ipdev ++ "\n"
          ++ "\nipname = \x7benv.ip_pod" ++ fmt.Sprintf02d (i + 1)
          ++ "\x7d\nnetmask = \x7benv.netmask\x7d\nnetwork = \x7benv.network\x7d\ngateway = \x7benv.gateway\x7d\ndel_net_route = true\ndisable = true\nenable_on = \x7bnodes[$("
          ++ strconv.Itoa i ++ "//(" ++ strconv.Itoa servers.length
          ++ "//\x7b#nodes\x7d))]\x7d\n\n" ∧
        ((∃ a ∈ (agents.get ⟨i % agents.length, Nat.mod_lt _ hM⟩).Ips,
            firstThree a.Addr = firstThree (servers.get ⟨i, hi⟩) ∧ ipdev = a.Net_intf) ∨
         ((∀ a ∈ (agents.get ⟨i % agents.length, Nat.mod_lt _ hM⟩).Ips,
            firstThree a.Addr ≠ firstThree (servers.get ⟨i, hi⟩)) ∧ ipdev = ""))) ∧
    ((∃ conf, (GenerateTemplate c servers agents).1 = .ok (conf, none)) ↔
      NoPanic c servers agents) ∧
    (WellFormed c servers agents →
      ∃ conf, (GenerateTemplate c servers agents).1 = .ok (conf, none)) := by
  refine ⟨?_, GenerateTemplate_returns_iff c servers agents,
    GenerateTemplate_returns c servers agents⟩
  intro conf err hok i hi
  obtain ⟨f, hf, _, _, hnet, _, _⟩ := manifest_fragments c servers agents conf err hok i hi
  obtain ⟨hM, ipdev, hr, hfnet⟩ := podBody_resolved _ _ _ _ _ _ _ hf
  refine ⟨hM, ipdev, f, hf, hnet, ?_, resolveIpdev_sound _ _ _ _ hr⟩
  rw [hfnet, if_neg hnd]
  simp only [Sections.empty, String.append_assoc, String.empty_append]

/-- C6 (amended), at a host whose inventory has an address without dots
besides an address on the subnet of the endpoint: the call returns a
manifest, and the manifest contains the network fragment of the pod. -/
theorem ipdev_resolution_witness :
    (∃ conf, (GenerateTemplate (mkCollector "system.ext4.none.physical./dev/sdb" "192.168.1.1"
        "255.255.255.0") ["10.0.0.5"]
        [mkHost "node1" [mkAddr "fe80::1" "lo6", mkAddr "10.0.0.9" "eth1"]]).1
      = .ok (conf, none)) ∧
    ∃ f, podBody (GenerateTemplate (mkCollector "system.ext4.none.physical./dev/sdb"
          "192.168.1.1" "255.255.255.0") ["10.0.0.5"]
          [mkHost "node1" [mkAddr "fe80::1" "lo6", mkAddr "10.0.0.9" "eth1"]]).2
        1 [mkHost "node1" [mkAddr "fe80::1" "lo6", mkAddr "10.0.0.9" "eth1"]] 0 "10.0.0.5"
        Sections.empty = .ok f ∧
      Contains
        (manifestOf (GenerateTemplate (mkCollector "system.ext4.none.physical./dev/sdb"
          "192.168.1.1" "255.255.255.0") ["10.0.0.5"]
          [mkHost "node1" [mkAddr "fe80::1" "lo6", mkAddr "10.0.0.9" "eth1"]]).1) f.net := by
  have h := ipdev_resolution
    (mkCollector "system.ext4.none.physical./dev/sdb" "192.168.1.1" "255.255.255.0")
    ["10.0.0.5"] [mkHost "node1" [mkAddr "fe80::1" "lo6", mkAddr "10.0.0.9" "eth1"]]
    (by decide)
  refine ⟨h.2.1.mpr (by decide), ?_⟩
  obtain ⟨_, _, f, hf, hc, _⟩ := h.1
    (manifestOf (GenerateTemplate (mkCollector "system.ext4.none.physical./dev/sdb"
      "192.168.1.1" "255.255.255.0") ["10.0.0.5"]
      [mkHost "node1" [mkAddr "fe80::1" "lo6", mkAddr "10.0.0.9" "eth1"]]).1) none rfl 0
    (by decide)
  exact ⟨f, hf, hc⟩

/-! ## C7 -/

theorem podBody_docker_unique (c : Collector) (n : Nat) (agents agents1 : List Host) (i : Nat)
    (host : String) (s f f1 : Sections) (hd : c.ProvMicroSrv = "docker")
    (h : podBody c n agents i host s = .ok f) (h1 : podBody c n agents1 i host s = .ok f1) :
    f = f1 := by
  obtain ⟨hM, ipdev, hr, _⟩ := podBody_resolved c n agents i host s f h
  obtain ⟨hM1, ipdev1, hr1, _⟩ := podBody_resolved c n agents1 i host s f1 h1
  unfold podBody at h h1
  simp only at h h1
  rw [if_neg (Nat.pos_iff_ne_zero.mp hM), index_of_lt agents _ (Nat.mod_lt _ hM)] at h
  rw [if_neg (Nat.pos_iff_ne_zero.mp hM1), index_of_lt agents1 _ (Nat.mod_lt _ hM1)] at h1
  simp only at h h1
  rw [hr] at h
  rw [hr1] at h1
  simp only [hd, if_true, Except.ok.injEq] at h h1
  rw [← h, ← h1]

theorem podLoop_docker_unique (c : Collector) (n : Nat) (agents agents1 : List Host)
    (hosts : List String) (i : Nat) (s r r1 : Sections) (hd : c.ProvMicroSrv = "docker")
    (h : podLoop c n agents i hosts s = .ok r) (h1 : podLoop c n agents1 i hosts s = .ok r1) :
    r = r1 := by
  induction hosts generalizing i s with
  | nil =>
    simp only [podLoop, Except.ok.injEq] at h h1
    rw [← h, ← h1]
  | cons host rest ih =>
    rw [podLoop] at h h1
    cases hf : podBody c n agents i host s with
    | error p => rw [hf] at h; exact absurd h (by simp)
    | ok f =>
      cases hf1 : podBody c n agents1 i host s with
      | error p => rw [hf1] at h1; exact absurd h1 (by simp)
      | ok f1 =>
        rw [hf] at h
        rw [hf1] at h1
        have hff := podBody_docker_unique c n agents agents1 i host s f f1 hd hf hf1
        subst hff
        exact ih (i + 1) f h h1

theorem generateBody_docker_unique (c : Collector) (servers : List String)
    (agents agents1 : List Host) (conf conf1 : String) (err err1 : GoError)
    (hd : c.ProvMicroSrv = "docker")
    (h : generateBody c servers agents = .ok (conf, err))
    (h1 : generateBody c servers agents1 = .ok (conf1, err1)) :
    generateBody c servers agents = generateBody c servers agents1 := by
  obtain ⟨s, network, hs, hn, _⟩ := generateBody_ok_inv c servers agents conf err h
  obtain ⟨s1, network1, hs1, hn1, _⟩ := generateBody_ok_inv c servers agents1 conf1 err1 h1
  have hss := podLoop_docker_unique c servers.length agents agents1 servers 0 Sections.empty
    s s1 hd hs hs1
  subst hss
  have e : podLoop c servers.length agents 0 servers
        { disk := "", fs := "", net := "", vm := "", ip_pods := "" }
      = podLoop c servers.length agents1 0 servers
        { disk := "", fs := "", net := "", vm := "", ip_pods := "" } := hs.trans hs1.symm
  unfold generateBody
  rw [e]

/-- C7, as stated, fails: with a docker descriptor the loop over the host's
addresses still runs; two one-host lists that differ only in the address
inventory give different outcomes, a manifest for the address `10.0.0.9` and
an index-out-of-range panic for the address `10`. -/
theorem docker_resolver_skipped_counterexample :
    (∃ conf, (GenerateTemplate (mkCollector "docker.ext4.lvm.loopback./data" "192.168.1.1"
        "255.255.255.0") ["10.0.0.5"] [mkHost "node1" [mkAddr "10.0.0.9" "eth0"]]).1
      = .ok (conf, none)) ∧
    (GenerateTemplate (mkCollector "docker.ext4.lvm.loopback./data" "192.168.1.1"
        "255.255.255.0") ["10.0.0.5"] [mkHost "node1" [mkAddr "10" "eth0"]]).1
      = .error (.indexOutOfRange 1 1) ∧
    [mkHost "node1" [mkAddr "10.0.0.9" "eth0"]].map (fun h => { h with Ips := [] })
      = [mkHost "node1" [mkAddr "10" "eth0"]].map (fun h => { h with Ips := [] }) :=
  ⟨⟨_, rfl⟩, rfl, by decide⟩

/-- C7 (amended): when the microservice kind is docker the interface
resolver still runs but its result is not used: for every endpoint list and
every two non-empty allocation host lists that differ only in the hosts'
address inventories, whenever both calls return they have the same outcome
and leave the same collector; every manifest returned contains, for every
pod, the pod's network fragment with `ipdev` fixed to `br0`; and a call
returns exactly when the descriptor has at least 5 fields, there is a host
when there is an endpoint, every netmask component `0` has a gateway
component at its position, and no comparison of a host address with its
endpoint indexes a missing component; in particular it returns on
well-formed inputs. -/
theorem docker_resolver_unused (c : Collector) (servers : List String)
    (agents agents1 : List Host)
    (hd : (GenerateTemplate c servers agents).2.ProvMicroSrv = "docker")
    (_hM : agents ≠ []) (_hM1 : agents1 ≠ [])
    (_hsame : agents.map (fun h => { h with Ips := [] })
      = agents1.map (fun h => { h with Ips := [] })) :
    ((∃ conf, (GenerateTemplate c servers agents).1 = .ok (conf, none)) →
      (∃ conf, (GenerateTemplate c servers agents1).1 = .ok (conf, none)) →
      GenerateTemplate c servers agents = GenerateTemplate c servers agents1) ∧
    (∀ conf err, (GenerateTemplate c servers agents).1 = .ok (conf, err) →
      ∀ i (hi : i < servers.length), ∃ f,
        podBody (GenerateTemplate c servers agents).2 servers.length agents i
          (servers.get ⟨i, hi⟩) Sections.empty = .ok f ∧
        Contains conf f.net ∧
        f.net = "\n[ip#" ++ fmt.Sprintf02d (i + 1)
          ++ "]\ntags = sm sm.container sm.container.pod" ++ fmt.Sprintf02d (i + 1)
          ++ " pod" ++ fmt.Sprintf02d (i + 1) ++ "\n"
          ++ "\ntype = docker\nipdev = br0\ncontainer_rid = container#00\n\n"
          ++ "\nipname = \x7benv.ip_pod" ++ fmt.Sprintf02d (i + 1)
          ++ "\x7d\nnetmask = \x7benv.netmask\x7d\nnetwork = \x7benv.network\x7d\ngateway = \x7benv.gateway\x7d\ndel_net_route = true\ndisable = true\nenable_on = \x7bnodes[$("
          ++ strconv.Itoa i ++ "//(" ++ strconv.Itoa servers.length
          ++ "//\x7b#nodes\x7d))]\x7d\n\n") ∧
    ((∃ conf, (GenerateTemplate c servers agents).1 = .ok (conf, none)) ↔
      NoPanic c servers agents) ∧
    (WellFormed c servers agents →
      ∃ conf, (GenerateTemplate c servers agents).1 = .ok (conf, none)) := by
  refine ⟨?_, ?_, GenerateTemplate_returns_iff c servers agents,
    GenerateTemplate_returns c servers agents⟩
  · rintro ⟨conf, hok⟩ ⟨conf1, hok1⟩
    obtain ⟨h5, _⟩ := GenerateTemplate_ok_inv c servers agents conf none hok
    obtain ⟨t0, t1, t2, t3, t4, rest, ht⟩ := exists_fields_of_length h5
    rw [GenerateTemplate_of_fields c servers agents _ _ _ _ _ _ ht] at hd hok ⊢
    rw [GenerateTemplate_of_fields c servers agents1 _ _ _ _ _ _ ht] at hok1 ⊢
    rw [generateBody_docker_unique _ servers agents agents1 conf conf1 none none hd hok hok1]
  · intro conf err hok i hi
    obtain ⟨f, hf, _, _, hnet, _, _⟩ := manifest_fragments c servers agents conf err hok i hi
    obtain ⟨_, ipdev, _, hfnet⟩ := podBody_resolved _ _ _ _ _ _ _ hf
    refine ⟨f, hf, hnet, ?_⟩
    rw [hfnet, if_pos hd]
    simp only [Sections.empty, String.append_assoc, String.empty_append]

/-- C7 (amended), at two one-host lists whose inventories differ and hold
addresses without dots: both calls return, with the same outcome. -/
theorem docker_resolver_unused_witness :
    GenerateTemplate (mkCollector "docker.ext4.lvm.loopback./data" "192.168.1.1"
        "255.255.255.0") ["10.0.0.5", "10.0.0.6"]
        [mkHost "node1" [mkAddr "fe80::1" "lo6", mkAddr "10.0.0.9" "eth0"]]
      = GenerateTemplate (mkCollector "docker.ext4.lvm.loopback./data" "192.168.1.1"
        "255.255.255.0") ["10.0.0.5", "10.0.0.6"]
        [mkHost "node1" [mkAddr "::1" "lo"]] :=
  have h := docker_resolver_unused
    (mkCollector "docker.ext4.lvm.loopback./data" "192.168.1.1" "255.255.255.0")
    ["10.0.0.5", "10.0.0.6"]
    [mkHost "node1" [mkAddr "fe80::1" "lo6", mkAddr "10.0.0.9" "eth0"]]
    [mkHost "node1" [mkAddr "::1" "lo"]] (by decide) (by decide) (by decide) (by decide)
  h.1 (h.2.2.1.mpr (by decide)) ⟨_, rfl⟩

/-! ## C8 -/

theorem GenerateTemplate_frame (c : Collector) (servers : List String) (agents : List Host) :
    { (GenerateTemplate c servers agents).2 with
      ProvMicroSrv := c.ProvMicroSrv, ProvFSType := c.ProvFSType, ProvFSPool := c.ProvFSPool,
      ProvFSMode := c.ProvFSMode, ProvFSPath := c.ProvFSPath } = c := by
  unfold GenerateTemplate
  generalize strings.Split c.ProvTemplate '.' = tpl
  match tpl with
  | [] => rfl
  | [_] => rfl
  | [_, _] => rfl
  | [_, _, _] => rfl
  | [_, _, _, _] => rfl
  | t0 :: t1 :: t2 :: t3 :: t4 :: rest => rw [assignDescriptor_fields]

theorem assignDescriptor_written (c : Collector) (tpl : List String) :
    (assignDescriptor c tpl).2.ProvMicroSrv = (tpl[0]?).getD c.ProvMicroSrv ∧
    (assignDescriptor c tpl).2.ProvFSType = (tpl[1]?).getD c.ProvFSType ∧
    (assignDescriptor c tpl).2.ProvFSPool = (tpl[2]?).getD c.ProvFSPool ∧
    (assignDescriptor c tpl).2.ProvFSMode = (tpl[3]?).getD c.ProvFSMode ∧
    (assignDescriptor c tpl).2.ProvFSPath = (tpl[4]?).getD c.ProvFSPath := by
  match tpl with
  | [] => exact ⟨rfl, rfl, rfl, rfl, rfl⟩
  | [_] => exact ⟨rfl, rfl, rfl, rfl, rfl⟩
  | [_, _] => exact ⟨rfl, rfl, rfl, rfl, rfl⟩
  | [_, _, _] => exact ⟨rfl, rfl, rfl, rfl, rfl⟩
  | [_, _, _, _] => exact ⟨rfl, rfl, rfl, rfl, rfl⟩
  | t0 :: t1 :: t2 :: t3 :: t4 :: rest =>
    rw [assignDescriptor_fields]
    simp

/-- C8, as stated, fails: the call writes the receiver; here `ProvMicroSrv`
is empty before the call and `docker` after it. -/
theorem receiver_unchanged_counterexample :
    (GenerateTemplate (mkCollector "docker.ext4.lvm.loopback./data" "192.168.1.1"
        "255.255.255.0") ["10.0.0.5"] [mkHost "node1" [mkAddr "10.0.0.9" "eth0"]]).2
      ≠ mkCollector "docker.ext4.lvm.loopback./data" "192.168.1.1" "255.255.255.0" ∧
    (mkCollector "docker.ext4.lvm.loopback./data" "192.168.1.1" "255.255.255.0").ProvMicroSrv
      = "" ∧
    (GenerateTemplate (mkCollector "docker.ext4.lvm.loopback./data" "192.168.1.1"
        "255.255.255.0") ["10.0.0.5"] [mkHost "node1" [mkAddr "10.0.0.9" "eth0"]]).2.ProvMicroSrv
      = "docker" := by
  refine ⟨?_, rfl, rfl⟩
  intro h
  have h1 := congrArg Collector.ProvMicroSrv h
  revert h1
  decide

/-- C8 (amended): the call writes five fields of the receiver and no other:
setting `ProvMicroSrv`, `ProvFSType`, `ProvFSPool`, `ProvFSMode` and
`ProvFSPath` back to their values before the call gives the collector before
the call; after the call each of the five holds the descriptor field of its
position (0 to 4) when the descriptor has that field, and its value before
the call when it has not (the call has then ended in a panic before writing
it); in particular with at least five fields the five hold the first five
fields; and a second call on the collector so left has the same outcome and
leaves it as it is. -/
theorem receiver_frame (c : Collector) (servers : List String) (agents : List Host) :
    { (GenerateTemplate c servers agents).2 with
      ProvMicroSrv := c.ProvMicroSrv, ProvFSType := c.ProvFSType, ProvFSPool := c.ProvFSPool,
      ProvFSMode := c.ProvFSMode, ProvFSPath := c.ProvFSPath } = c ∧
    ((GenerateTemplate c servers agents).2.ProvMicroSrv
        = ((strings.Split c.ProvTemplate '.')[0]?).getD c.ProvMicroSrv ∧
      (GenerateTemplate c servers agents).2.ProvFSType
        = ((strings.Split c.ProvTemplate '.')[1]?).getD c.ProvFSType ∧
      (GenerateTemplate c servers agents).2.ProvFSPool
        = ((strings.Split c.ProvTemplate '.')[2]?).getD c.ProvFSPool ∧
      (GenerateTemplate c servers agents).2.ProvFSMode
        = ((strings.Split c.ProvTemplate '.')[3]?).getD c.ProvFSMode ∧
      (GenerateTemplate c servers agents).2.ProvFSPath
        = ((strings.Split c.ProvTemplate '.')[4]?).getD c.ProvFSPath) ∧
    (∀ t0 t1 t2 t3 t4 rest,
      strings.Split c.ProvTemplate '.' = t0 :: t1 :: t2 :: t3 :: t4 :: rest →
      (GenerateTemplate c servers agents).2 =
        { c with ProvMicroSrv := t0, ProvFSType := t1, ProvFSPool := t2,
                 ProvFSMode := t3, ProvFSPath := t4 }) ∧
    GenerateTemplate (GenerateTemplate c servers agents).2 servers agents
      = GenerateTemplate c servers agents := by
  refine ⟨GenerateTemplate_frame c servers agents, ?_, ?_,
    GenerateTemplate_repeat c servers agents⟩
  · rw [GenerateTemplate_snd]
    exact assignDescriptor_written c _
  · intro t0 t1 t2 t3 t4 rest h
    rw [GenerateTemplate_of_fields c servers agents _ _ _ _ _ _ h]

/-- C8 (amended), at the end-to-end descriptor, where the five fields after
the call are `docker`, `ext4`, `lvm`, `loopback` and `/data`, and at the
two-field descriptor `docker.ext4`, where the call panics after writing
`ProvMicroSrv` and `ProvFSType` and leaves `ProvFSPool` as it was. -/
theorem receiver_frame_witness :
    (GenerateTemplate (mkCollector "docker.ext4.lvm.loopback./data" "192.168.1.1"
        "255.255.255.0") ["10.0.0.5"] []).2
      = { mkCollector "docker.ext4.lvm.loopback./data" "192.168.1.1" "255.255.255.0" with
          ProvMicroSrv := "docker", ProvFSType := "ext4", ProvFSPool := "lvm",
          ProvFSMode := "loopback", ProvFSPath := "/data" } ∧
    (GenerateTemplate (mkCollector "docker.ext4" "192.168.1.1" "255.255.255.0")
        ["10.0.0.5"] []).2.ProvMicroSrv = "docker" ∧
    (GenerateTemplate (mkCollector "docker.ext4" "192.168.1.1" "255.255.255.0")
        ["10.0.0.5"] []).2.ProvFSType = "ext4" ∧
    (GenerateTemplate (mkCollector "docker.ext4" "192.168.1.1" "255.255.255.0")
        ["10.0.0.5"] []).2.ProvFSPool = "" :=
  ⟨(receiver_frame _ _ _).2.2.1 "docker" "ext4" "lvm" "loopback" "/data" [] (by decide),
   (receiver_frame (mkCollector "docker.ext4" "192.168.1.1" "255.255.255.0")
      ["10.0.0.5"] []).2.1.1,
   (receiver_frame (mkCollector "docker.ext4" "192.168.1.1" "255.255.255.0")
      ["10.0.0.5"] []).2.1.2.1,
   (receiver_frame (mkCollector "docker.ext4" "192.168.1.1" "255.255.255.0")
      ["10.0.0.5"] []).2.1.2.2.1⟩

/-! ## C9 -/

/-- C9: for every descriptor with exactly 5 dot-separated fields, the five
values the call stores in `ProvMicroSrv`, `ProvFSType`, `ProvFSPool`,
`ProvFSMode` and `ProvFSPath`, joined with `.`, give the descriptor back. -/
theorem descriptor_round_trip (c : Collector) (servers : List String) (agents : List Host)
    (h5 : (strings.Split c.ProvTemplate '.').length = 5) :
    strings.Join
      [(GenerateTemplate c servers agents).2.ProvMicroSrv,
       (GenerateTemplate c servers agents).2.ProvFSType,
       (GenerateTemplate c servers agents).2.ProvFSPool,
       (GenerateTemplate c servers agents).2.ProvFSMode,
       (GenerateTemplate c servers agents).2.ProvFSPath] "." = c.ProvTemplate := by
  obtain ⟨t0, t1, t2, t3, t4, rest, ht⟩ := exists_fields_of_length (Nat.le_of_eq h5.symm)
  have hrest : rest = [] := by
    rw [ht] at h5
    simpa using h5
  subst hrest
  rw [GenerateTemplate_of_fields c servers agents _ _ _ _ _ _ ht]
  have := strings.Join_Split c.ProvTemplate '.'
  rw [ht] at this
  exact this

/-- C9, at the end-to-end descriptor. -/
theorem descriptor_round_trip_witness :
    strings.Join
      [(GenerateTemplate (mkCollector "docker.ext4.lvm.loopback./data" "10.0.0.1" "255.0.0.0")
          [] []).2.ProvMicroSrv,
       (GenerateTemplate (mkCollector "docker.ext4.lvm.loopback./data" "10.0.0.1" "255.0.0.0")
          [] []).2.ProvFSType,
       (GenerateTemplate (mkCollector "docker.ext4.lvm.loopback./data" "10.0.0.1" "255.0.0.0")
          [] []).2.ProvFSPool,
       (GenerateTemplate (mkCollector "docker.ext4.lvm.loopback./data" "10.0.0.1" "255.0.0.0")
          [] []).2.ProvFSMode,
       (GenerateTemplate (mkCollector "docker.ext4.lvm.loopback./data" "10.0.0.1" "255.0.0.0")
          [] []).2.ProvFSPath] "."
      = (mkCollector "docker.ext4.lvm.loopback./data" "10.0.0.1" "255.0.0.0").ProvTemplate :=
  descriptor_round_trip _ _ _ (by decide)

/-! ## C10 -/

theorem podBody_host (c : Collector) (n : Nat) (agents : List Host) (i : Nat)
    (host : String) (s : Sections) (hM : 0 < agents.length) :
    podBody c n agents i host s
      = podBody c n [agents.get ⟨i % agents.length, Nat.mod_lt _ hM⟩] i host s := by
  have h1 : index [agents.get ⟨i % agents.length, Nat.mod_lt _ hM⟩] (i % 1)
      = .ok (agents.get ⟨i % agents.length, Nat.mod_lt _ hM⟩) := by
    rw [Nat.mod_one]
    rfl
  unfold podBody
  simp only [List.length_singleton]
  rw [if_neg (Nat.pos_iff_ne_zero.mp hM), if_neg Nat.one_ne_zero,
    index_of_lt agents _ (Nat.mod_lt _ hM), h1]

/-- C10: with `M > 0` allocation hosts, pod `i` is resolved against
`hosts[i mod M]`: an iteration of the loop over the full host list is the
same as over the one-host list `[hosts[i mod M]]`; in every manifest
returned, the network fragment of pod `i` is present and, for a
non-containerized descriptor, its `ipdev` is the result of the resolver on
the inventory of `hosts[i mod M]` and endpoint `i`; a repeated call with the
same inputs has the same outcome; and the call returns on well-formed
inputs. -/
theorem round_robin_host (c : Collector) (servers : List String) (agents : List Host)
    (hM : 0 < agents.length) :
    (∀ (d : Collector) (n i : Nat) (host : String) (s : Sections),
      podBody d n agents i host s
        = podBody d n [agents.get ⟨i % agents.length, Nat.mod_lt _ hM⟩] i host s) ∧
    (∀ conf err, (GenerateTemplate c servers agents).1 = .ok (conf, err) →
      ∀ i (hi : i < servers.length), ∃ (f : Sections) (ipdev : String),
        podBody (GenerateTemplate c servers agents).2 servers.length agents i
          (servers.get ⟨i, hi⟩) Sections.empty = .ok f ∧
        Contains conf f.net ∧
        resolveIpdev (servers.get ⟨i, hi⟩)
          (agents.get ⟨i % agents.length, Nat.mod_lt _ hM⟩).Ips "" = .ok ipdev ∧
        ((GenerateTemplate c servers agents).2.ProvMicroSrv ≠ "docker" →
          f.net = "\n[ip#" ++ fmt.Sprintf02d (i + 1)
            ++ "]\ntags = sm sm.container sm.container.pod" ++ fmt.Sprintf02d (i + 1)
            ++ " pod" ++ fmt.Sprintf02d (i + 1) ++ "\n"
            ++ "\nipdev = " ++ ipdev ++ "\n"
            ++ "\nipname = \x7benv.ip_pod" ++ fmt.Sprintf02d (i + 1)
            ++ "\x7d\nnetmask = \x7benv.netmask\x7d\nnetwork = \x7benv.network\x7d\ngateway = \x7benv.gateway\x7d\ndel_net_route = true\ndisable = true\nenable_on = \x7bnodes[$("
            ++ strconv.Itoa i ++ "//(" ++ strconv.Itoa servers.length
            ++ "//\x7b#nodes\x7d))]\x7d\n\n")) ∧
    GenerateTemplate (GenerateTemplate c servers agents).2 servers agents
      = GenerateTemplate c servers agents ∧
    (WellFormed c servers agents →
      ∃ conf, (GenerateTemplate c servers agents).1 = .ok (conf, none)) := by
  refine ⟨fun d n i host s => podBody_host d n agents i host s hM, ?_,
    GenerateTemplate_repeat c servers agents, GenerateTemplate_returns c servers agents⟩
  intro conf err hok i hi
  obtain ⟨f, hf, _, _, hnet, _, _⟩ := manifest_fragments c servers agents conf err hok i hi
  obtain ⟨_, ipdev, hr, hfnet⟩ := podBody_resolved _ _ _ _ _ _ _ hf
  refine ⟨f, ipdev, hf, hnet, hr, ?_⟩
  intro hnd
  rw [hfnet, if_neg hnd]
  simp only [Sections.empty, String.append_assoc, String.empty_append]

/-- C10, at three endpoints and two hosts: pod 2 (position 2) is resolved
against host `2 mod 2 = 0`. -/
theorem round_robin_host_witness :
    podBody (mkCollector "system.ext4.none.physical./dev/sdb" "192.168.1.1" "255.255.255.0")
        3 [mkHost "node1" [mkAddr "10.0.0.9" "eth0"], mkHost "node2" [mkAddr "10.0.0.8" "eth1"]]
        2 "10.0.0.7" Sections.empty
      = podBody (mkCollector "system.ext4.none.physical./dev/sdb" "192.168.1.1" "255.255.255.0")
        3 [mkHost "node1" [mkAddr "10.0.0.9" "eth0"]] 2 "10.0.0.7" Sections.empty :=
  (round_robin_host
    (mkCollector "system.ext4.none.physical./dev/sdb" "192.168.1.1" "255.255.255.0")
    ["10.0.0.5", "10.0.0.6", "10.0.0.7"]
    [mkHost "node1" [mkAddr "10.0.0.9" "eth0"], mkHost "node2" [mkAddr "10.0.0.8" "eth1"]]
    (by decide)).1 _ 3 2 "10.0.0.7" Sections.empty


/-! ## C11 -/

theorem podBody_vm (c : Collector) (n : Nat) (agents : List Host) (i : Nat)
    (host : String) (s f : Sections) (h : podBody c n agents i host s = .ok f) :
    f.vm = s.vm ++
      (if c.ProvMicroSrv = "docker" then
        "\n[container#" ++ fmt.Sprintf02d (i + 1) ++ "]\ntags = pod" ++ fmt.Sprintf02d (i + 1)
          ++ "\ntype = docker\nrun_image = \x7benv.db_img\x7d\nrun_args = --net=container:\x7bsvcname\x7d.container.00\n   -e MYSQL_ROOT_PASSWORD=\x7benv.mysql_root_password\x7d\n   -e MYSQL_INITDB_SKIP_TZINFO=yes\n   -v /etc/localtime:/etc/localtime:ro\n   -v \x7benv.base_dir\x7d/pod"
          ++ fmt.Sprintf02d (i + 1) ++ "/data:/var/lib/mysql:rw\n   -v \x7benv.base_dir\x7d/pod"
          ++ fmt.Sprintf02d (i + 1)
          ++ "/conf/my.cnf:/etc/mysql/my.cnf:rw\n   -v \x7benv.base_dir\x7d/pod"
          ++ fmt.Sprintf02d (i + 1)
          ++ "/init:/docker-entrypoint-initdb.d:rw\ndisable = true\nenable_on = \x7bnodes[$("
          ++ strconv.Itoa i ++ "//(" ++ strconv.Itoa n ++ "//\x7b#nodes\x7d))]\x7d\n\n"
      else "") := by
  unfold podBody at h
  simp only at h
  split at h
  · exact absurd h (by simp)
  · split at h
    · exact absurd h (by simp)
    · split at h
      · exact absurd h (by simp)
      · simp only [Except.ok.injEq] at h
        rw [← h]
        split_ifs <;> simp only [String.append_assoc, String.append_empty]

/-- C11: in every manifest the call returns, for the pod at position `i` of
`N` endpoints, each fragment emitted with `disable = true` (the filesystem
fragment when the filesystem type is not `directory`, the network fragment,
and the compute fragment when the microservice kind is `docker`) is present
in the manifest and ends with the line `disable = true` followed at once by
the line `enable_on = {nodes[$(i//(N//{#nodes}))]}`, `i` and `N` in decimal
and `{#nodes}` left as it is; the call returns on well-formed inputs. -/
theorem enable_on_expression (c : Collector) (servers : List String) (agents : List Host) :
    (∀ conf err, (GenerateTemplate c servers agents).1 = .ok (conf, err) →
      ∀ i (hi : i < servers.length), ∃ f,
        podBody (GenerateTemplate c servers agents).2 servers.length agents i
          (servers.get ⟨i, hi⟩) Sections.empty = .ok f ∧
        Contains conf f.fs ∧ Contains conf f.net ∧ Contains conf f.vm ∧
        ((GenerateTemplate c servers agents).2.ProvFSType ≠ "directory" →
          ∃ pre, f.fs = pre ++ "disable = true\nenable_on = \x7bnodes[$("
            ++ strconv.Itoa i ++ "//(" ++ strconv.Itoa servers.length
            ++ "//\x7b#nodes\x7d))]\x7d\n\n") ∧
        (∃ pre, f.net = pre ++ "disable = true\nenable_on = \x7bnodes[$("
            ++ strconv.Itoa i ++ "//(" ++ strconv.Itoa servers.length
            ++ "//\x7b#nodes\x7d))]\x7d\n\n") ∧
        ((GenerateTemplate c servers agents).2.ProvMicroSrv = "docker" →
          ∃ pre, f.vm = pre ++ "disable = true\nenable_on = \x7bnodes[$("
            ++ strconv.Itoa i ++ "//(" ++ strconv.Itoa servers.length
            ++ "//\x7b#nodes\x7d))]\x7d\n\n") ∧
        strconv.Itoa i = Nat.repr i ∧ strconv.Itoa servers.length = Nat.repr servers.length) ∧
    (WellFormed c servers agents →
      ∃ conf, (GenerateTemplate c servers agents).1 = .ok (conf, none)) := by
  refine ⟨?_, GenerateTemplate_returns c servers agents⟩
  intro conf err hok i hi
  obtain ⟨f, hf, _, hfs, hnet, hvm, _⟩ := manifest_fragments c servers agents conf err hok i hi
  have key : ∀ x a b i p n z : String,
      x ++ (a ++ b) ++ i ++ p ++ n ++ z = (x ++ a) ++ b ++ i ++ p ++ n ++ z := by
    intro x a b i p n z
    simp only [String.append_assoc]
  refine ⟨f, hf, hfs, hnet, hvm, ?_, ?_, ?_, rfl, rfl⟩
  · intro hdir
    have h := podBody_fs _ _ _ _ _ _ _ hf
    rw [if_neg hdir] at h
    have hlit : ("\nsize = \x7benv.size\x7d\ndisable = true\nenable_on = \x7bnodes[$(" : String)
        = "\nsize = \x7benv.size\x7d\n" ++ "disable = true\nenable_on = \x7bnodes[$(" := by
      decide
    rw [hlit] at h
    simp only [Sections.empty, String.empty_append] at h
    rw [h]
    exact ⟨_, key _ _ _ _ _ _ _⟩
  · obtain ⟨_, ipdev, _, h⟩ := podBody_resolved _ _ _ _ _ _ _ hf
    have hlit : ("\x7d\nnetmask = \x7benv.netmask\x7d\nnetwork = \x7benv.network\x7d\ngateway = \x7benv.gateway\x7d\ndel_net_route = true\ndisable = true\nenable_on = \x7bnodes[$(" : String)
        = "\x7d\nnetmask = \x7benv.netmask\x7d\nnetwork = \x7benv.network\x7d\ngateway = \x7benv.gateway\x7d\ndel_net_route = true\n"
          ++ "disable = true\nenable_on = \x7bnodes[$(" := by
      decide
    rw [hlit] at h
    rw [h]
    exact ⟨_, key _ _ _ _ _ _ _⟩
  · intro hd
    have h := podBody_vm _ _ _ _ _ _ _ hf
    rw [if_pos hd] at h
    have hlit : ("/init:/docker-entrypoint-initdb.d:rw\ndisable = true\nenable_on = \x7bnodes[$(" : String)
        = "/init:/docker-entrypoint-initdb.d:rw\n"
          ++ "disable = true\nenable_on = \x7bnodes[$(" := by
      decide
    rw [hlit] at h
    simp only [Sections.empty, String.empty_append] at h
    rw [h]
    exact ⟨_, key _ _ _ _ _ _ _⟩

/-- C11, at the end-to-end scenario: the call returns a manifest. -/
theorem enable_on_expression_witness :
    ∃ conf, (GenerateTemplate (mkCollector "docker.ext4.lvm.loopback./data" "192.168.1.1"
        "255.255.255.0") ["10.0.0.5", "10.0.0.6"]
        [mkHost "node1" [mkAddr "10.0.0.9" "eth0"]]).1 = .ok (conf, none) :=
  (enable_on_expression _ _ _).2 (by decide)

/-! ## C12 -/

theorem podBody_disk (c : Collector) (n : Nat) (agents : List Host) (i : Nat)
    (host : String) (s f : Sections) (h : podBody c n agents i host s = .ok f) :
    f.disk = s.disk ++
      (if c.ProvFSMode = "loopback" then
        "\n[disk#" ++ fmt.Sprintf02d (i + 1) ++ "]\ntype = loop\nfile = " ++ c.ProvFSPath
          ++ "/\x7bsvcname\x7d_pod" ++ fmt.Sprintf02d (i + 1)
          ++ ".dsk\nsize = \x7benv.size\x7d\n\n"
      else "") ++
      (if c.ProvFSPool = "lvm" then
        "\n[disk#10" ++ fmt.Sprintf02d (i + 1)
          ++ "]\nname = \x7bsvcname\x7d\ntype = lvm\npvs = \x7bdisk#"
          ++ fmt.Sprintf02d (i + 1) ++ ".file\x7d\n\n"
      else "") := by
  unfold podBody at h
  simp only at h
  split at h
  · exact absurd h (by simp)
  · split at h
    · exact absurd h (by simp)
    · split at h
      · exact absurd h (by simp)
      · simp only [Except.ok.injEq] at h
        rw [← h]
        split_ifs <;> simp only [String.append_assoc, String.append_empty]

/-- C12, as stated, fails: with pool strategy `lvm` and placement mode
`physical` the manifest has the fragment `[disk#1001]` with
`pvs = {disk#01.file}`, but no fragment `[disk#01]`: the loop disk is only
emitted in placement mode `loopback`. -/
theorem lvm_disk_fragment_counterexample :
    ∃ conf, (GenerateTemplate (mkCollector "docker.ext4.lvm.physical./dev/sdb" "192.168.1.1"
        "255.255.255.0") ["10.0.0.5"] [mkHost "node1" [mkAddr "10.0.0.9" "eth0"]]).1
        = .ok (conf, none) ∧
      Contains conf "\n[disk#1001]\nname = \x7bsvcname\x7d\ntype = lvm\npvs = \x7bdisk#01.file\x7d\n" ∧
      ¬ Contains conf "[disk#01]" :=
  ⟨_, rfl, by decide!, by decide!⟩

/-- C12 (amended): in every manifest returned for a descriptor whose pool
strategy is `lvm`, every pod `NN` has the disk fragment `[disk#10NN]` of type
`lvm` with `pvs = {disk#NN.file}`; when the placement mode is `loopback` the
loop-type fragment `[disk#NN]` that this reference names is in the manifest
too, and when it is not, the lvm fragment is the pod's only disk fragment;
the first two lvm disk ids are `1001` and `1002`; and the call returns on
well-formed inputs. -/
theorem lvm_disk_fragment (c : Collector) (servers : List String) (agents : List Host) :
    (∀ conf err, (GenerateTemplate c servers agents).1 = .ok (conf, err) →
      (GenerateTemplate c servers agents).2.ProvFSPool = "lvm" →
      ∀ i (hi : i < servers.length), ∃ f,
        podBody (GenerateTemplate c servers agents).2 servers.length agents i
          (servers.get ⟨i, hi⟩) Sections.empty = .ok f ∧
        Contains conf f.disk ∧
        Contains conf ("\n[disk#10" ++ fmt.Sprintf02d (i + 1)
          ++ "]\nname = \x7bsvcname\x7d\ntype = lvm\npvs = \x7bdisk#"
          ++ fmt.Sprintf02d (i + 1) ++ ".file\x7d\n\n") ∧
        ((GenerateTemplate c servers agents).2.ProvFSMode = "loopback" →
          Contains conf ("\n[disk#" ++ fmt.Sprintf02d (i + 1) ++ "]\ntype = loop\nfile = "
            ++ (GenerateTemplate c servers agents).2.ProvFSPath
            ++ "/\x7bsvcname\x7d_pod" ++ fmt.Sprintf02d (i + 1)
            ++ ".dsk\nsize = \x7benv.size\x7d\n\n")) ∧
        ((GenerateTemplate c servers agents).2.ProvFSMode ≠ "loopback" →
          f.disk = "\n[disk#10" ++ fmt.Sprintf02d (i + 1)
            ++ "]\nname = \x7bsvcname\x7d\ntype = lvm\npvs = \x7bdisk#"
            ++ fmt.Sprintf02d (i + 1) ++ ".file\x7d\n\n")) ∧
    ("10" ++ fmt.Sprintf02d (0 + 1) = "1001" ∧ "10" ++ fmt.Sprintf02d (1 + 1) = "1002") ∧
    (WellFormed c servers agents →
      ∃ conf, (GenerateTemplate c servers agents).1 = .ok (conf, none)) := by
  refine ⟨?_, ⟨by decide, by decide⟩, GenerateTemplate_returns c servers agents⟩
  intro conf err hok hpool i hi
  obtain ⟨f, hf, hdisk, _, _, _, _⟩ := manifest_fragments c servers agents conf err hok i hi
  have h := podBody_disk _ _ _ _ _ _ _ hf
  rw [if_pos hpool] at h
  refine ⟨f, hf, hdisk, ?_, ?_, ?_⟩
  · refine Contains.trans hdisk ?_
    rw [h]
    exact Contains.append_left _ (Contains.refl _)
  · intro hmode
    rw [if_pos hmode] at h
    refine Contains.trans hdisk ?_
    rw [h]
    exact Contains.append_right _ (Contains.append_left _ (Contains.refl _))
  · intro hmode
    rw [if_neg hmode] at h
    rw [h]
    simp only [Sections.empty, String.append_empty, String.empty_append]

/-- C12 (amended), at the end-to-end scenario: the manifest has the fragment
`[disk#1002]` of the second pod. -/
theorem lvm_disk_fragment_witness :
    Contains
      (manifestOf (GenerateTemplate (mkCollector "docker.ext4.lvm.loopback./data" "192.168.1.1"
        "255.255.255.0") ["10.0.0.5", "10.0.0.6"]
        [mkHost "node1" [mkAddr "10.0.0.9" "eth0"]]).1)
      ("\n[disk#10" ++ fmt.Sprintf02d (1 + 1)
        ++ "]\nname = \x7bsvcname\x7d\ntype = lvm\npvs = \x7bdisk#"
        ++ fmt.Sprintf02d (1 + 1) ++ ".file\x7d\n\n") := by
  obtain ⟨_, _, _, h, _⟩ := (lvm_disk_fragment
    (mkCollector "docker.ext4.lvm.loopback./data" "192.168.1.1" "255.255.255.0")
    ["10.0.0.5", "10.0.0.6"] [mkHost "node1" [mkAddr "10.0.0.9" "eth0"]]).1
    _ none rfl (by decide) 1 (by decide)
  exact h

/-! ## C13 -/

theorem digitChar_value : ∀ k < 10, (Nat.digitChar k).toNat - 48 = k := by decide

theorem foldl_decimal_shift (l : List Char) (a : Nat) :
    l.foldl (fun a ch => 10 * a + (ch.toNat - 48)) a
      = a * 10 ^ l.length + decimalValue l := by
  induction l generalizing a with
  | nil => simp [decimalValue]
  | cons ch t ih =>
    unfold decimalValue
    simp only [List.foldl_cons, List.length_cons]
    rw [ih, ih (10 * 0 + (ch.toNat - 48))]
    ring

theorem decimalValue_append (l : List Char) (ch : Char) :
    decimalValue (l ++ [ch]) = 10 * decimalValue l + (ch.toNat - 48) := by
  simp [decimalValue, List.foldl_append]

theorem toDigitsCore_acc (b f n : Nat) (ds : List Char) :
    Nat.toDigitsCore b f n ds = Nat.toDigitsCore b f n [] ++ ds := by
  induction f generalizing n ds with
  | zero => simp [Nat.toDigitsCore]
  | succ f ih =>
    simp only [Nat.toDigitsCore]
    split
    · simp
    · rw [ih, ih (n / b) [Nat.digitChar (n % b)]]
      simp

theorem decimalValue_toDigitsCore (f n : Nat) (h : n < f) :
    decimalValue (Nat.toDigitsCore 10 f n []) = n := by
  induction f generalizing n with
  | zero => exact absurd h (by omega)
  | succ f ih =>
    simp only [Nat.toDigitsCore]
    split
    · rename_i h0
      have hn : n < 10 := by omega
      simp only [decimalValue, List.foldl_cons, List.foldl_nil]
      rw [Nat.mod_eq_of_lt hn, digitChar_value n hn]
      omega
    · rename_i h0
      rw [toDigitsCore_acc, decimalValue_append, ih (n / 10) (by omega),
        digitChar_value (n % 10) (Nat.mod_lt _ (by omega))]
      omega

theorem decimalValue_Sprintf02d (n : Nat) : decimalValue (fmt.Sprintf02d n).data = n := by
  have hz : ∀ k (l : List Char),
      decimalValue (List.replicate k '0' ++ l) = decimalValue l := by
    intro k l
    induction k with
    | zero => simp
    | succ k ih =>
      rw [List.replicate_succ, List.cons_append]
      unfold decimalValue at ih ⊢
      rw [List.foldl_cons]
      exact ih
  unfold fmt.Sprintf02d
  rw [hz]
  exact decimalValue_toDigitsCore (n + 1) n (by omega)

theorem Sprintf02d_length (n : Nat) : 2 ≤ (fmt.Sprintf02d n).data.length := by
  unfold fmt.Sprintf02d
  simp only [List.length_append, List.length_replicate]
  omega

theorem decimalValue_lvm_id (n : Nat) :
    1000 + n ≤ decimalValue ("10" ++ fmt.Sprintf02d n).data := by
  have h1 : ("10" ++ fmt.Sprintf02d n).data = '1' :: '0' :: (fmt.Sprintf02d n).data := rfl
  rw [h1]
  unfold decimalValue
  simp only [List.foldl_cons]
  rw [foldl_decimal_shift, decimalValue_Sprintf02d]
  have h2 := Sprintf02d_length n
  have h3 : 10 ^ 2 ≤ 10 ^ (fmt.Sprintf02d n).data.length :=
    Nat.pow_le_pow_right (by omega) h2
  have h4 : (10 * (10 * 0 + ('1'.toNat - 48)) + ('0'.toNat - 48)) = 10 := by decide
  rw [h4]
  nlinarith

theorem Sprintf02d_injective (m n : Nat) (h : fmt.Sprintf02d m = fmt.Sprintf02d n) : m = n := by
  have := congrArg (fun s => decimalValue s.data) h
  simpa [decimalValue_Sprintf02d] using this

theorem lvm_id_injective (m n : Nat)
    (h : "10" ++ fmt.Sprintf02d m = "10" ++ fmt.Sprintf02d n) : m = n := by
  apply Sprintf02d_injective
  have h1 := congrArg String.data h
  simp only [String.data_append, List.append_cancel_left_eq] at h1
  exact String.ext h1

theorem loop_id_ne_lvm_id (m n : Nat) (hm : m ≤ 1000) :
    fmt.Sprintf02d m ≠ "10" ++ fmt.Sprintf02d n ∨ n = 0 := by
  by_cases hn : n = 0
  · exact Or.inr hn
  · left
    intro h
    have h1 := congrArg (fun s => decimalValue s.data) h
    simp only [decimalValue_Sprintf02d] at h1
    have h2 := decimalValue_lvm_id n
    omega

/-- C13, as stated, fails: with 1001 endpoints the pod at position 1000 has
the identifier `1001`, which is the lvm disk id `10` + `01` of the pod at
position 0; the loop disk fragment of the one and the lvm disk fragment of
the other both open with `[disk#1001]`. -/
theorem disk_ids_distinct_counterexample :
    fmt.Sprintf02d (1000 + 1) = "10" ++ fmt.Sprintf02d (0 + 1) ∧
    (GenerateTemplate (mkCollector "docker.ext4.lvm.loopback./data" "192.168.1.1"
        "255.255.255.0") [] []).2.ProvFSMode = "loopback" ∧
    (GenerateTemplate (mkCollector "docker.ext4.lvm.loopback./data" "192.168.1.1"
        "255.255.255.0") [] []).2.ProvFSPool = "lvm" ∧
    ∃ f g,
      podBody (GenerateTemplate (mkCollector "docker.ext4.lvm.loopback./data" "192.168.1.1"
          "255.255.255.0") [] []).2 1001 [mkHost "node1" [mkAddr "10.0.0.9" "eth0"]]
        1000 "10.0.3.233" Sections.empty = .ok f ∧
      podBody (GenerateTemplate (mkCollector "docker.ext4.lvm.loopback./data" "192.168.1.1"
          "255.255.255.0") [] []).2 1001 [mkHost "node1" [mkAddr "10.0.0.9" "eth0"]]
        0 "10.0.0.5" Sections.empty = .ok g ∧
      Contains f.disk "\n[disk#1001]\ntype = loop\n" ∧
      Contains g.disk "\n[disk#1001]\nname = \x7bsvcname\x7d\ntype = lvm\n" :=
  ⟨by decide, rfl, rfl, _, _, rfl, rfl, by decide!, by decide!⟩

/-- C13 (amended): for a descriptor with placement mode `loopback` and pool
strategy `lvm`, every returned manifest has, for every pod, a loop disk
fragment with the pod identifier `NN` as id and an lvm disk fragment with id
`10` + `NN`; and for every endpoint list of at most 1000 endpoints these
identifiers are pairwise distinct: two pods have different loop disk ids and
different lvm disk ids, and no loop disk id is an lvm disk id; the call
returns on well-formed inputs. -/
theorem disk_ids_distinct (c : Collector) (servers : List String) (agents : List Host) :
    (∀ conf err, (GenerateTemplate c servers agents).1 = .ok (conf, err) →
      (GenerateTemplate c servers agents).2.ProvFSMode = "loopback" →
      (GenerateTemplate c servers agents).2.ProvFSPool = "lvm" →
      ∀ i, i < servers.length →
        Contains conf ("\n[disk#" ++ fmt.Sprintf02d (i + 1) ++ "]\ntype = loop\nfile = ") ∧
        Contains conf ("\n[disk#" ++ ("10" ++ fmt.Sprintf02d (i + 1))
          ++ "]\nname = \x7bsvcname\x7d\ntype = lvm\npvs = \x7bdisk#")) ∧
    (servers.length ≤ 1000 → ∀ i j, i < servers.length → j < servers.length →
      (i ≠ j → fmt.Sprintf02d (i + 1) ≠ fmt.Sprintf02d (j + 1)) ∧
      (i ≠ j → "10" ++ fmt.Sprintf02d (i + 1) ≠ "10" ++ fmt.Sprintf02d (j + 1)) ∧
      fmt.Sprintf02d (i + 1) ≠ "10" ++ fmt.Sprintf02d (j + 1)) ∧
    (WellFormed c servers agents →
      ∃ conf, (GenerateTemplate c servers agents).1 = .ok (conf, none)) := by
  refine ⟨?_, ?_, GenerateTemplate_returns c servers agents⟩
  · intro conf err hok hmode hpool i hi
    obtain ⟨f, hf, hdisk, _, _, _, _⟩ := manifest_fragments c servers agents conf err hok i hi
    have h := podBody_disk _ _ _ _ _ _ _ hf
    rw [if_pos hpool, if_pos hmode] at h
    constructor
    · refine Contains.trans hdisk ?_
      rw [h]
      apply Contains.append_right
      apply Contains.append_left
      iterate 4 apply Contains.append_right
      exact Contains.refl _
    · refine Contains.trans hdisk ?_
      rw [h]
      apply Contains.append_left
      iterate 2 apply Contains.append_right
      have hlit : ("\n[disk#10" : String) = "\n[disk#" ++ "10" := by decide
      rw [hlit, String.append_assoc "\n[disk#" "10"]
      exact Contains.refl _
  · intro hN i j hi hj
    refine ⟨?_, ?_, ?_⟩
    · intro hij h
      exact hij (by have := Sprintf02d_injective _ _ h; omega)
    · intro hij h
      exact hij (by have := lvm_id_injective _ _ h; omega)
    · rcases loop_id_ne_lvm_id (i + 1) (j + 1) (by omega) with h | h
      · exact h
      · omega

/-- C13 (amended), at the end-to-end scenario with two endpoints: the loop
disk id of the second pod is not the lvm disk id of the first. -/
theorem disk_ids_distinct_witness :
    fmt.Sprintf02d (1 + 1) ≠ "10" ++ fmt.Sprintf02d (0 + 1) :=
  ((disk_ids_distinct
    (mkCollector "docker.ext4.lvm.loopback./data" "192.168.1.1" "255.255.255.0")
    ["10.0.0.5", "10.0.0.6"] [mkHost "node1" [mkAddr "10.0.0.9" "eth0"]]).2.1
    (by decide) 1 0 (by decide) (by decide)).2.2
end opensvc
